import Mathlib

/-!
Verification of the combat-core specification of `rpg-cli` against a shallow
embedding of its source (`src/character/class.rs`, `src/main.rs`).

Machine integers (`i32`) are modelled as `Int`; `u32` as `Nat`. The catalog
constants, the stat growth function, the weighted enemy selection, the CLI
orchestrator exit-code logic and the item-name sanitizer are translated
directly from the Rust source.
-/

namespace RpgCli

/-- Rust: `pub struct Stat(pub i32, pub i32)` — a base value and the amount
added per level (`base()` returns field 0, `increase()` returns field 1). -/
structure Stat where
  base : Int
  increase : Int
deriving DecidableEq, Repr

/-- Rust: `Stat::at(level) = self.0 + level * self.increase()`. -/
def Stat.atLevel (s : Stat) (level : Int) : Int :=
  s.base + level * s.increase

/-- Rust: `enum StatusEffect { Burning, Poisoned }` (from `character` module,
as used by `class.rs` and `log.rs`). -/
inductive StatusEffect where
  | Burning
  | Poisoned
deriving DecidableEq, Repr

/-- Rust: `pub struct Class` from `class.rs`. -/
structure Class where
  name : String
  hp : Stat
  strength : Stat
  speed : Stat
  inflicts : Option (StatusEffect × Nat)
deriving DecidableEq, Repr

/-- Rust: `Class::HERO`. -/
def Class.HERO : Class :=
  { name := "hero", hp := ⟨30, 7⟩, strength := ⟨12, 3⟩, speed := ⟨11, 2⟩,
    inflicts := none }

def RAT : Class :=
  { name := "rat", hp := ⟨10, 3⟩, strength := ⟨5, 2⟩, speed := ⟨16, 2⟩,
    inflicts := none }

def WOLF : Class :=
  { name := "wolf", hp := ⟨15, 3⟩, strength := ⟨8, 2⟩, speed := ⟨12, 2⟩,
    inflicts := none }

def SNAKE : Class :=
  { name := "snake", hp := ⟨13, 3⟩, strength := ⟨7, 2⟩, speed := ⟨6, 2⟩,
    inflicts := some (.Poisoned, 5) }

def SLIME : Class :=
  { name := "slime", hp := ⟨80, 3⟩, strength := ⟨3, 2⟩, speed := ⟨4, 2⟩,
    inflicts := some (.Poisoned, 10) }

def SPIDER : Class :=
  { name := "spider", hp := ⟨10, 3⟩, strength := ⟨9, 2⟩, speed := ⟨12, 2⟩,
    inflicts := some (.Poisoned, 20) }

def ZOMBIE : Class :=
  { name := "zombie", hp := ⟨50, 3⟩, strength := ⟨8, 2⟩, speed := ⟨6, 2⟩,
    inflicts := none }

def ORC : Class :=
  { name := "orc", hp := ⟨35, 3⟩, strength := ⟨13, 2⟩, speed := ⟨12, 2⟩,
    inflicts := none }

def SKELETON : Class :=
  { name := "skeleton", hp := ⟨30, 3⟩, strength := ⟨10, 2⟩, speed := ⟨10, 2⟩,
    inflicts := none }

def DEMON : Class :=
  { name := "demon", hp := ⟨50, 3⟩, strength := ⟨10, 2⟩, speed := ⟨18, 2⟩,
    inflicts := some (.Burning, 10) }

def VAMPIRE : Class :=
  { name := "vampire", hp := ⟨50, 3⟩, strength := ⟨13, 2⟩, speed := ⟨10, 2⟩,
    inflicts := none }

def DRAGON : Class :=
  { name := "dragon", hp := ⟨100, 3⟩, strength := ⟨25, 2⟩, speed := ⟨8, 2⟩,
    inflicts := some (.Burning, 2) }

def GOLEM : Class :=
  { name := "golem", hp := ⟨50, 3⟩, strength := ⟨45, 2⟩, speed := ⟨2, 1⟩,
    inflicts := none }

def CHIMERA : Class :=
  { name := "chimera", hp := ⟨200, 2⟩, strength := ⟨90, 2⟩, speed := ⟨16, 2⟩,
    inflicts := some (.Poisoned, 3) }

def BASILISK : Class :=
  { name := "basilisk", hp := ⟨150, 3⟩, strength := ⟨100, 2⟩, speed := ⟨18, 2⟩,
    inflicts := some (.Poisoned, 2) }

def MINOTAUR : Class :=
  { name := "minotaur", hp := ⟨100, 3⟩, strength := ⟨60, 2⟩, speed := ⟨40, 2⟩,
    inflicts := none }

def BALROG : Class :=
  { name := "balrog", hp := ⟨200, 3⟩, strength := ⟨200, 2⟩, speed := ⟨14, 2⟩,
    inflicts := some (.Burning, 3) }

def PHOENIX : Class :=
  { name := "phoenix", hp := ⟨350, 3⟩, strength := ⟨180, 2⟩, speed := ⟨28, 2⟩,
    inflicts := some (.Burning, 2) }

/-- Rust: `pub const COMMON: &[Class]`. -/
def COMMON : List Class := [RAT, WOLF, SNAKE, SLIME, SPIDER]

/-- Rust: `pub const RARE: &[Class]`. -/
def RARE : List Class := [ZOMBIE, ORC, SKELETON, DEMON, VAMPIRE, DRAGON, GOLEM]

/-- Rust: `pub const LEGENDARY: &[Class]`. -/
def LEGENDARY : List Class := [CHIMERA, BASILISK, MINOTAUR, BALROG, PHOENIX]

/-- Modelled from the spec: `location.rs` is not part of the provided sources;
the spec defines `DistanceTier` as `Near(uint)`, `Mid(uint)`, `Far(uint)` and
the `match` arms of `weighted_choice` confirm the three constructors each
carry an ignored payload. -/
inductive Distance where
  | Near (magnitude : Nat)
  | Mid (magnitude : Nat)
  | Far (magnitude : Nat)
deriving DecidableEq, Repr

/-- Rust: the `match distance` in `weighted_choice`, producing the weight
triple `(w_near, w_mid, w_far)`. -/
def tierWeights (distance : Distance) : Int × Int × Int :=
  match distance with
  | .Near _ => (9, 2, 0)
  | .Mid _ => (7, 10, 1)
  | .Far _ => (1, 6, 3)

/-- Rust: the flattened candidate list built by `weighted_choice`:
`COMMON` entries paired with `w_near`, chained with `RARE` entries paired
with `w_mid`, chained with `LEGENDARY` entries paired with `w_far`. -/
def candidates (distance : Distance) : List (Class × Int) :=
  let w := tierWeights distance
  COMMON.map (fun c => (c, w.1)) ++ RARE.map (fun c => (c, w.2.1))
    ++ LEGENDARY.map (fun c => (c, w.2.2))

/-- Total weight of a candidate list (the normalizing constant of
`choose_weighted`'s sampling distribution). -/
def totalWeight (l : List (Class × Int)) : Int :=
  (l.map fun p => p.2).sum

/-- Sum of the weights of the entries whose class lies in a given tier list —
the unnormalized probability mass `choose_weighted` assigns to that tier. -/
def tierMass (l : List (Class × Int)) (tier : List Class) : Int :=
  ((l.filter fun p => tier.contains p.1).map fun p => p.2).sum

/-- Probability, under `choose_weighted`'s distribution (each entry drawn
with probability weight/total), that the drawn class lies in `tier`. -/
def tierProb (distance : Distance) (tier : List Class) : ℚ :=
  (tierMass (candidates distance) tier : ℚ)
    / (totalWeight (candidates distance) : ℚ)

/-- Sequential model of one weighted draw: walk the list subtracting weights
from the draw value `r` (a uniform sample in `[0, total)`); the entry whose
cumulative-weight interval contains `r` is chosen. This is the standard
semantics of `rand`'s `choose_weighted` for a fixed draw. -/
def pick : List (Class × Int) → Int → Option Class
  | [], _ => none
  | (c, w) :: rest, r => if r < w then some c else pick rest (r - w)

/-- Model of `rand`'s `choose_weighted` on a slice: it returns an error
(`none` here) iff the list is empty, some weight is negative, or the total
weight is zero; otherwise it draws an entry proportionally to its weight
(here: the entry selected by the draw value `r`). -/
def choose_weighted (l : List (Class × Int)) (r : Int) : Option Class :=
  if l.isEmpty ∨ l.any (fun p => decide (p.2 < 0)) ∨ totalWeight l ≤ 0 then
    none
  else
    pick l r

/-- Rust: `Class::random_enemy(distance)` = `weighted_choice(distance)`,
with the random draw made explicit as `r`. -/
def random_enemy (distance : Distance) (r : Int) : Option Class :=
  choose_weighted (candidates distance) r

/-- Result of the external `game.go_to(&dest, run, bribe)` call in
`change_dir` (`game.rs` is out of scope): it either succeeds or reports
`Err(character::Dead)`. -/
inductive GoToResult where
  | ok
  | dead
deriving DecidableEq, Repr

/-- Result of the external `game.maybe_battle(&mut enemy, run, bribe)` call
in `battle`: it either succeeds or reports `Err(character::Dead)`. -/
inductive BattleResult where
  | ok
  | dead
deriving DecidableEq, Repr

/-- Observable effects of `change_dir` in `main.rs`: the returned exit code,
whether `game.reset()` was invoked, and the location directly assigned in the
`force` branch (if any). -/
structure CdOutcome where
  exitCode : Int
  didReset : Bool
  forcedLocation : Option String
deriving DecidableEq, Repr

/-- Rust: `fn change_dir(game, dest, run, bribe, force) -> i32` from
`main.rs`. `parsed` is the result of the external `Location::from(&dest)`
(`none` when it returns `Err`, i.e. the destination is invalid); `goTo` is
the result of the external `game.go_to` call, consulted only in the
non-forced branch. -/
def change_dir (parsed : Option String) (goTo : GoToResult) (force : Bool) :
    CdOutcome :=
  match parsed with
  | some dest =>
    if force then
      { exitCode := 0, didReset := false, forcedLocation := some dest }
    else
      match goTo with
      | .dead => { exitCode := 1, didReset := true, forcedLocation := none }
      | .ok => { exitCode := 0, didReset := false, forcedLocation := none }
  | none => { exitCode := 1, didReset := false, forcedLocation := none }

/-- Rust: `fn battle(game, run, bribe) -> i32` from `main.rs`. `spawned`
tells whether the external `game.maybe_spawn_enemy()` returned `Some`;
`result` is the outcome of the external `game.maybe_battle` call, consulted
only when an enemy spawned. Returns the exit code and whether
`game.reset()` was invoked. -/
def battle (spawned : Bool) (result : BattleResult) : Int × Bool :=
  if spawned then
    match result with
    | .dead => (1, true)
    | .ok => (0, false)
  else
    (0, false)

/-- A binary search tree of lowercase-mapping entries, mirroring the sorted
lookup table with binary search (`bsearch_case_table`) that Rust's
`char::to_lowercase` uses. -/
inductive LTree where
  | leaf
  | node (left : LTree) (key : Nat) (val : List Nat) (right : LTree)

/-- Binary-search lookup of a code point's lowercase expansion. -/
def LTree.find : LTree → Nat → Option (List Nat)
  | .leaf, _ => none
  | .node l k v r, n =>
    if n < k then l.find n else if k < n then r.find n else some v

/-- In-order traversal: the sorted entry list the tree represents. -/
def LTree.toList : LTree → List (Nat × List Nat)
  | .leaf => []
  | .node l k v r => toList l ++ (k, v) :: toList r

/-- Check that the tree is a strictly ordered search tree with all keys in
`[lo, hi)`; evaluation recursion depth is the tree height. -/
def treeOrdered : LTree → Nat → Nat → Bool
  | .leaf, _, _ => true
  | .node l k _ r, lo, hi =>
    (decide (lo ≤ k) && decide (k < hi)) && treeOrdered l lo k
      && treeOrdered r (k + 1) hi

/-- Check that the tree's in-order contents are exactly a prefix of the
given entry list, returning the unconsumed suffix; evaluation recursion
depth is the tree height. -/
def consumeInOrder : LTree → List (Nat × List Nat) →
    Option (List (Nat × List Nat))
  | .leaf, es => some es
  | .node l k v r, es =>
    match consumeInOrder l es with
    | some ((k2, v2) :: rest) =>
      if k = k2 ∧ v = v2 then consumeInOrder r rest else none
    | _ => none

set_option maxHeartbeats 4000000 in
set_option maxRecDepth 16000 in
/-- The Unicode character database's full (unconditional) lowercase mapping,
as code points: every scalar value whose lowercase expansion differs from
itself, paired with that expansion. This is the table behind
`char::to_lowercase`, which Rust's `str::to_lowercase` applies to every
character except capital sigma (931, handled below with the Final_Sigma
context rule). -/
def lowerTable : List (Nat × List Nat) := [
  (65, [97]), (66, [98]), (67, [99]), (68, [100]), (69, [101]),
  (70, [102]), (71, [103]), (72, [104]), (73, [105]), (74, [106]),
  (75, [107]), (76, [108]), (77, [109]), (78, [110]), (79, [111]),
  (80, [112]), (81, [113]), (82, [114]), (83, [115]), (84, [116]),
  (85, [117]), (86, [118]), (87, [119]), (88, [120]), (89, [121]),
  (90, [122]), (192, [224]), (193, [225]), (194, [226]), (195, [227]),
  (196, [228]), (197, [229]), (198, [230]), (199, [231]), (200, [232]),
  (201, [233]), (202, [234]), (203, [235]), (204, [236]), (205, [237]),
  (206, [238]), (207, [239]), (208, [240]), (209, [241]), (210, [242]),
  (211, [243]), (212, [244]), (213, [245]), (214, [246]), (216, [248]),
  (217, [249]), (218, [250]), (219, [251]), (220, [252]), (221, [253]),
  (222, [254]), (256, [257]), (258, [259]), (260, [261]), (262, [263]),
  (264, [265]), (266, [267]), (268, [269]), (270, [271]), (272, [273]),
  (274, [275]), (276, [277]), (278, [279]), (280, [281]), (282, [283]),
  (284, [285]), (286, [287]), (288, [289]), (290, [291]), (292, [293]),
  (294, [295]), (296, [297]), (298, [299]), (300, [301]), (302, [303]),
  (304, [105, 775]), (306, [307]), (308, [309]), (310, [311]), (313, [314]),
  (315, [316]), (317, [318]), (319, [320]), (321, [322]), (323, [324]),
  (325, [326]), (327, [328]), (330, [331]), (332, [333]), (334, [335]),
  (336, [337]), (338, [339]), (340, [341]), (342, [343]), (344, [345]),
  (346, [347]), (348, [349]), (350, [351]), (352, [353]), (354, [355]),
  (356, [357]), (358, [359]), (360, [361]), (362, [363]), (364, [365]),
  (366, [367]), (368, [369]), (370, [371]), (372, [373]), (374, [375]),
  (376, [255]), (377, [378]), (379, [380]), (381, [382]), (385, [595]),
  (386, [387]), (388, [389]), (390, [596]), (391, [392]), (393, [598]),
  (394, [599]), (395, [396]), (398, [477]), (399, [601]), (400, [603]),
  (401, [402]), (403, [608]), (404, [611]), (406, [617]), (407, [616]),
  (408, [409]), (412, [623]), (413, [626]), (415, [629]), (416, [417]),
  (418, [419]), (420, [421]), (422, [640]), (423, [424]), (425, [643]),
  (428, [429]), (430, [648]), (431, [432]), (433, [650]), (434, [651]),
  (435, [436]), (437, [438]), (439, [658]), (440, [441]), (444, [445]),
  (452, [454]), (453, [454]), (455, [457]), (456, [457]), (458, [460]),
  (459, [460]), (461, [462]), (463, [464]), (465, [466]), (467, [468]),
  (469, [470]), (471, [472]), (473, [474]), (475, [476]), (478, [479]),
  (480, [481]), (482, [483]), (484, [485]), (486, [487]), (488, [489]),
  (490, [491]), (492, [493]), (494, [495]), (497, [499]), (498, [499]),
  (500, [501]), (502, [405]), (503, [447]), (504, [505]), (506, [507]),
  (508, [509]), (510, [511]), (512, [513]), (514, [515]), (516, [517]),
  (518, [519]), (520, [521]), (522, [523]), (524, [525]), (526, [527]),
  (528, [529]), (530, [531]), (532, [533]), (534, [535]), (536, [537]),
  (538, [539]), (540, [541]), (542, [543]), (544, [414]), (546, [547]),
  (548, [549]), (550, [551]), (552, [553]), (554, [555]), (556, [557]),
  (558, [559]), (560, [561]), (562, [563]), (570, [11365]), (571, [572]),
  (573, [410]), (574, [11366]), (577, [578]), (579, [384]), (580, [649]),
  (581, [652]), (582, [583]), (584, [585]), (586, [587]), (588, [589]),
  (590, [591]), (880, [881]), (882, [883]), (886, [887]), (895, [1011]),
  (902, [940]), (904, [941]), (905, [942]), (906, [943]), (908, [972]),
  (910, [973]), (911, [974]), (913, [945]), (914, [946]), (915, [947]),
  (916, [948]), (917, [949]), (918, [950]), (919, [951]), (920, [952]),
  (921, [953]), (922, [954]), (923, [955]), (924, [956]), (925, [957]),
  (926, [958]), (927, [959]), (928, [960]), (929, [961]), (931, [963]),
  (932, [964]), (933, [965]), (934, [966]), (935, [967]), (936, [968]),
  (937, [969]), (938, [970]), (939, [971]), (975, [983]), (984, [985]),
  (986, [987]), (988, [989]), (990, [991]), (992, [993]), (994, [995]),
  (996, [997]), (998, [999]), (1000, [1001]), (1002, [1003]), (1004, [1005]),
  (1006, [1007]), (1012, [952]), (1015, [1016]), (1017, [1010]), (1018, [1019]),
  (1021, [891]), (1022, [892]), (1023, [893]), (1024, [1104]), (1025, [1105]),
  (1026, [1106]), (1027, [1107]), (1028, [1108]), (1029, [1109]), (1030, [1110]),
  (1031, [1111]), (1032, [1112]), (1033, [1113]), (1034, [1114]), (1035, [1115]),
  (1036, [1116]), (1037, [1117]), (1038, [1118]), (1039, [1119]), (1040, [1072]),
  (1041, [1073]), (1042, [1074]), (1043, [1075]), (1044, [1076]), (1045, [1077]),
  (1046, [1078]), (1047, [1079]), (1048, [1080]), (1049, [1081]), (1050, [1082]),
  (1051, [1083]), (1052, [1084]), (1053, [1085]), (1054, [1086]), (1055, [1087]),
  (1056, [1088]), (1057, [1089]), (1058, [1090]), (1059, [1091]), (1060, [1092]),
  (1061, [1093]), (1062, [1094]), (1063, [1095]), (1064, [1096]), (1065, [1097]),
  (1066, [1098]), (1067, [1099]), (1068, [1100]), (1069, [1101]), (1070, [1102]),
  (1071, [1103]), (1120, [1121]), (1122, [1123]), (1124, [1125]), (1126, [1127]),
  (1128, [1129]), (1130, [1131]), (1132, [1133]), (1134, [1135]), (1136, [1137]),
  (1138, [1139]), (1140, [1141]), (1142, [1143]), (1144, [1145]), (1146, [1147]),
  (1148, [1149]), (1150, [1151]), (1152, [1153]), (1162, [1163]), (1164, [1165]),
  (1166, [1167]), (1168, [1169]), (1170, [1171]), (1172, [1173]), (1174, [1175]),
  (1176, [1177]), (1178, [1179]), (1180, [1181]), (1182, [1183]), (1184, [1185]),
  (1186, [1187]), (1188, [1189]), (1190, [1191]), (1192, [1193]), (1194, [1195]),
  (1196, [1197]), (1198, [1199]), (1200, [1201]), (1202, [1203]), (1204, [1205]),
  (1206, [1207]), (1208, [1209]), (1210, [1211]), (1212, [1213]), (1214, [1215]),
  (1216, [1231]), (1217, [1218]), (1219, [1220]), (1221, [1222]), (1223, [1224]),
  (1225, [1226]), (1227, [1228]), (1229, [1230]), (1232, [1233]), (1234, [1235]),
  (1236, [1237]), (1238, [1239]), (1240, [1241]), (1242, [1243]), (1244, [1245]),
  (1246, [1247]), (1248, [1249]), (1250, [1251]), (1252, [1253]), (1254, [1255]),
  (1256, [1257]), (1258, [1259]), (1260, [1261]), (1262, [1263]), (1264, [1265]),
  (1266, [1267]), (1268, [1269]), (1270, [1271]), (1272, [1273]), (1274, [1275]),
  (1276, [1277]), (1278, [1279]), (1280, [1281]), (1282, [1283]), (1284, [1285]),
  (1286, [1287]), (1288, [1289]), (1290, [1291]), (1292, [1293]), (1294, [1295]),
  (1296, [1297]), (1298, [1299]), (1300, [1301]), (1302, [1303]), (1304, [1305]),
  (1306, [1307]), (1308, [1309]), (1310, [1311]), (1312, [1313]), (1314, [1315]),
  (1316, [1317]), (1318, [1319]), (1320, [1321]), (1322, [1323]), (1324, [1325]),
  (1326, [1327]), (1329, [1377]), (1330, [1378]), (1331, [1379]), (1332, [1380]),
  (1333, [1381]), (1334, [1382]), (1335, [1383]), (1336, [1384]), (1337, [1385]),
  (1338, [1386]), (1339, [1387]), (1340, [1388]), (1341, [1389]), (1342, [1390]),
  (1343, [1391]), (1344, [1392]), (1345, [1393]), (1346, [1394]), (1347, [1395]),
  (1348, [1396]), (1349, [1397]), (1350, [1398]), (1351, [1399]), (1352, [1400]),
  (1353, [1401]), (1354, [1402]), (1355, [1403]), (1356, [1404]), (1357, [1405]),
  (1358, [1406]), (1359, [1407]), (1360, [1408]), (1361, [1409]), (1362, [1410]),
  (1363, [1411]), (1364, [1412]), (1365, [1413]), (1366, [1414]), (4256, [11520]),
  (4257, [11521]), (4258, [11522]), (4259, [11523]), (4260, [11524]), (4261, [11525]),
  (4262, [11526]), (4263, [11527]), (4264, [11528]), (4265, [11529]), (4266, [11530]),
  (4267, [11531]), (4268, [11532]), (4269, [11533]), (4270, [11534]), (4271, [11535]),
  (4272, [11536]), (4273, [11537]), (4274, [11538]), (4275, [11539]), (4276, [11540]),
  (4277, [11541]), (4278, [11542]), (4279, [11543]), (4280, [11544]), (4281, [11545]),
  (4282, [11546]), (4283, [11547]), (4284, [11548]), (4285, [11549]), (4286, [11550]),
  (4287, [11551]), (4288, [11552]), (4289, [11553]), (4290, [11554]), (4291, [11555]),
  (4292, [11556]), (4293, [11557]), (4295, [11559]), (4301, [11565]), (5024, [43888]),
  (5025, [43889]), (5026, [43890]), (5027, [43891]), (5028, [43892]), (5029, [43893]),
  (5030, [43894]), (5031, [43895]), (5032, [43896]), (5033, [43897]), (5034, [43898]),
  (5035, [43899]), (5036, [43900]), (5037, [43901]), (5038, [43902]), (5039, [43903]),
  (5040, [43904]), (5041, [43905]), (5042, [43906]), (5043, [43907]), (5044, [43908]),
  (5045, [43909]), (5046, [43910]), (5047, [43911]), (5048, [43912]), (5049, [43913]),
  (5050, [43914]), (5051, [43915]), (5052, [43916]), (5053, [43917]), (5054, [43918]),
  (5055, [43919]), (5056, [43920]), (5057, [43921]), (5058, [43922]), (5059, [43923]),
  (5060, [43924]), (5061, [43925]), (5062, [43926]), (5063, [43927]), (5064, [43928]),
  (5065, [43929]), (5066, [43930]), (5067, [43931]), (5068, [43932]), (5069, [43933]),
  (5070, [43934]), (5071, [43935]), (5072, [43936]), (5073, [43937]), (5074, [43938]),
  (5075, [43939]), (5076, [43940]), (5077, [43941]), (5078, [43942]), (5079, [43943]),
  (5080, [43944]), (5081, [43945]), (5082, [43946]), (5083, [43947]), (5084, [43948]),
  (5085, [43949]), (5086, [43950]), (5087, [43951]), (5088, [43952]), (5089, [43953]),
  (5090, [43954]), (5091, [43955]), (5092, [43956]), (5093, [43957]), (5094, [43958]),
  (5095, [43959]), (5096, [43960]), (5097, [43961]), (5098, [43962]), (5099, [43963]),
  (5100, [43964]), (5101, [43965]), (5102, [43966]), (5103, [43967]), (5104, [5112]),
  (5105, [5113]), (5106, [5114]), (5107, [5115]), (5108, [5116]), (5109, [5117]),
  (7312, [4304]), (7313, [4305]), (7314, [4306]), (7315, [4307]), (7316, [4308]),
  (7317, [4309]), (7318, [4310]), (7319, [4311]), (7320, [4312]), (7321, [4313]),
  (7322, [4314]), (7323, [4315]), (7324, [4316]), (7325, [4317]), (7326, [4318]),
  (7327, [4319]), (7328, [4320]), (7329, [4321]), (7330, [4322]), (7331, [4323]),
  (7332, [4324]), (7333, [4325]), (7334, [4326]), (7335, [4327]), (7336, [4328]),
  (7337, [4329]), (7338, [4330]), (7339, [4331]), (7340, [4332]), (7341, [4333]),
  (7342, [4334]), (7343, [4335]), (7344, [4336]), (7345, [4337]), (7346, [4338]),
  (7347, [4339]), (7348, [4340]), (7349, [4341]), (7350, [4342]), (7351, [4343]),
  (7352, [4344]), (7353, [4345]), (7354, [4346]), (7357, [4349]), (7358, [4350]),
  (7359, [4351]), (7680, [7681]), (7682, [7683]), (7684, [7685]), (7686, [7687]),
  (7688, [7689]), (7690, [7691]), (7692, [7693]), (7694, [7695]), (7696, [7697]),
  (7698, [7699]), (7700, [7701]), (7702, [7703]), (7704, [7705]), (7706, [7707]),
  (7708, [7709]), (7710, [7711]), (7712, [7713]), (7714, [7715]), (7716, [7717]),
  (7718, [7719]), (7720, [7721]), (7722, [7723]), (7724, [7725]), (7726, [7727]),
  (7728, [7729]), (7730, [7731]), (7732, [7733]), (7734, [7735]), (7736, [7737]),
  (7738, [7739]), (7740, [7741]), (7742, [7743]), (7744, [7745]), (7746, [7747]),
  (7748, [7749]), (7750, [7751]), (7752, [7753]), (7754, [7755]), (7756, [7757]),
  (7758, [7759]), (7760, [7761]), (7762, [7763]), (7764, [7765]), (7766, [7767]),
  (7768, [7769]), (7770, [7771]), (7772, [7773]), (7774, [7775]), (7776, [7777]),
  (7778, [7779]), (7780, [7781]), (7782, [7783]), (7784, [7785]), (7786, [7787]),
  (7788, [7789]), (7790, [7791]), (7792, [7793]), (7794, [7795]), (7796, [7797]),
  (7798, [7799]), (7800, [7801]), (7802, [7803]), (7804, [7805]), (7806, [7807]),
  (7808, [7809]), (7810, [7811]), (7812, [7813]), (7814, [7815]), (7816, [7817]),
  (7818, [7819]), (7820, [7821]), (7822, [7823]), (7824, [7825]), (7826, [7827]),
  (7828, [7829]), (7838, [223]), (7840, [7841]), (7842, [7843]), (7844, [7845]),
  (7846, [7847]), (7848, [7849]), (7850, [7851]), (7852, [7853]), (7854, [7855]),
  (7856, [7857]), (7858, [7859]), (7860, [7861]), (7862, [7863]), (7864, [7865]),
  (7866, [7867]), (7868, [7869]), (7870, [7871]), (7872, [7873]), (7874, [7875]),
  (7876, [7877]), (7878, [7879]), (7880, [7881]), (7882, [7883]), (7884, [7885]),
  (7886, [7887]), (7888, [7889]), (7890, [7891]), (7892, [7893]), (7894, [7895]),
  (7896, [7897]), (7898, [7899]), (7900, [7901]), (7902, [7903]), (7904, [7905]),
  (7906, [7907]), (7908, [7909]), (7910, [7911]), (7912, [7913]), (7914, [7915]),
  (7916, [7917]), (7918, [7919]), (7920, [7921]), (7922, [7923]), (7924, [7925]),
  (7926, [7927]), (7928, [7929]), (7930, [7931]), (7932, [7933]), (7934, [7935]),
  (7944, [7936]), (7945, [7937]), (7946, [7938]), (7947, [7939]), (7948, [7940]),
  (7949, [7941]), (7950, [7942]), (7951, [7943]), (7960, [7952]), (7961, [7953]),
  (7962, [7954]), (7963, [7955]), (7964, [7956]), (7965, [7957]), (7976, [7968]),
  (7977, [7969]), (7978, [7970]), (7979, [7971]), (7980, [7972]), (7981, [7973]),
  (7982, [7974]), (7983, [7975]), (7992, [7984]), (7993, [7985]), (7994, [7986]),
  (7995, [7987]), (7996, [7988]), (7997, [7989]), (7998, [7990]), (7999, [7991]),
  (8008, [8000]), (8009, [8001]), (8010, [8002]), (8011, [8003]), (8012, [8004]),
  (8013, [8005]), (8025, [8017]), (8027, [8019]), (8029, [8021]), (8031, [8023]),
  (8040, [8032]), (8041, [8033]), (8042, [8034]), (8043, [8035]), (8044, [8036]),
  (8045, [8037]), (8046, [8038]), (8047, [8039]), (8072, [8064]), (8073, [8065]),
  (8074, [8066]), (8075, [8067]), (8076, [8068]), (8077, [8069]), (8078, [8070]),
  (8079, [8071]), (8088, [8080]), (8089, [8081]), (8090, [8082]), (8091, [8083]),
  (8092, [8084]), (8093, [8085]), (8094, [8086]), (8095, [8087]), (8104, [8096]),
  (8105, [8097]), (8106, [8098]), (8107, [8099]), (8108, [8100]), (8109, [8101]),
  (8110, [8102]), (8111, [8103]), (8120, [8112]), (8121, [8113]), (8122, [8048]),
  (8123, [8049]), (8124, [8115]), (8136, [8050]), (8137, [8051]), (8138, [8052]),
  (8139, [8053]), (8140, [8131]), (8152, [8144]), (8153, [8145]), (8154, [8054]),
  (8155, [8055]), (8168, [8160]), (8169, [8161]), (8170, [8058]), (8171, [8059]),
  (8172, [8165]), (8184, [8056]), (8185, [8057]), (8186, [8060]), (8187, [8061]),
  (8188, [8179]), (8486, [969]), (8490, [107]), (8491, [229]), (8498, [8526]),
  (8544, [8560]), (8545, [8561]), (8546, [8562]), (8547, [8563]), (8548, [8564]),
  (8549, [8565]), (8550, [8566]), (8551, [8567]), (8552, [8568]), (8553, [8569]),
  (8554, [8570]), (8555, [8571]), (8556, [8572]), (8557, [8573]), (8558, [8574]),
  (8559, [8575]), (8579, [8580]), (9398, [9424]), (9399, [9425]), (9400, [9426]),
  (9401, [9427]), (9402, [9428]), (9403, [9429]), (9404, [9430]), (9405, [9431]),
  (9406, [9432]), (9407, [9433]), (9408, [9434]), (9409, [9435]), (9410, [9436]),
  (9411, [9437]), (9412, [9438]), (9413, [9439]), (9414, [9440]), (9415, [9441]),
  (9416, [9442]), (9417, [9443]), (9418, [9444]), (9419, [9445]), (9420, [9446]),
  (9421, [9447]), (9422, [9448]), (9423, [9449]), (11264, [11312]), (11265, [11313]),
  (11266, [11314]), (11267, [11315]), (11268, [11316]), (11269, [11317]), (11270, [11318]),
  (11271, [11319]), (11272, [11320]), (11273, [11321]), (11274, [11322]), (11275, [11323]),
  (11276, [11324]), (11277, [11325]), (11278, [11326]), (11279, [11327]), (11280, [11328]),
  (11281, [11329]), (11282, [11330]), (11283, [11331]), (11284, [11332]), (11285, [11333]),
  (11286, [11334]), (11287, [11335]), (11288, [11336]), (11289, [11337]), (11290, [11338]),
  (11291, [11339]), (11292, [11340]), (11293, [11341]), (11294, [11342]), (11295, [11343]),
  (11296, [11344]), (11297, [11345]), (11298, [11346]), (11299, [11347]), (11300, [11348]),
  (11301, [11349]), (11302, [11350]), (11303, [11351]), (11304, [11352]), (11305, [11353]),
  (11306, [11354]), (11307, [11355]), (11308, [11356]), (11309, [11357]), (11310, [11358]),
  (11311, [11359]), (11360, [11361]), (11362, [619]), (11363, [7549]), (11364, [637]),
  (11367, [11368]), (11369, [11370]), (11371, [11372]), (11373, [593]), (11374, [625]),
  (11375, [592]), (11376, [594]), (11378, [11379]), (11381, [11382]), (11390, [575]),
  (11391, [576]), (11392, [11393]), (11394, [11395]), (11396, [11397]), (11398, [11399]),
  (11400, [11401]), (11402, [11403]), (11404, [11405]), (11406, [11407]), (11408, [11409]),
  (11410, [11411]), (11412, [11413]), (11414, [11415]), (11416, [11417]), (11418, [11419]),
  (11420, [11421]), (11422, [11423]), (11424, [11425]), (11426, [11427]), (11428, [11429]),
  (11430, [11431]), (11432, [11433]), (11434, [11435]), (11436, [11437]), (11438, [11439]),
  (11440, [11441]), (11442, [11443]), (11444, [11445]), (11446, [11447]), (11448, [11449]),
  (11450, [11451]), (11452, [11453]), (11454, [11455]), (11456, [11457]), (11458, [11459]),
  (11460, [11461]), (11462, [11463]), (11464, [11465]), (11466, [11467]), (11468, [11469]),
  (11470, [11471]), (11472, [11473]), (11474, [11475]), (11476, [11477]), (11478, [11479]),
  (11480, [11481]), (11482, [11483]), (11484, [11485]), (11486, [11487]), (11488, [11489]),
  (11490, [11491]), (11499, [11500]), (11501, [11502]), (11506, [11507]), (42560, [42561]),
  (42562, [42563]), (42564, [42565]), (42566, [42567]), (42568, [42569]), (42570, [42571]),
  (42572, [42573]), (42574, [42575]), (42576, [42577]), (42578, [42579]), (42580, [42581]),
  (42582, [42583]), (42584, [42585]), (42586, [42587]), (42588, [42589]), (42590, [42591]),
  (42592, [42593]), (42594, [42595]), (42596, [42597]), (42598, [42599]), (42600, [42601]),
  (42602, [42603]), (42604, [42605]), (42624, [42625]), (42626, [42627]), (42628, [42629]),
  (42630, [42631]), (42632, [42633]), (42634, [42635]), (42636, [42637]), (42638, [42639]),
  (42640, [42641]), (42642, [42643]), (42644, [42645]), (42646, [42647]), (42648, [42649]),
  (42650, [42651]), (42786, [42787]), (42788, [42789]), (42790, [42791]), (42792, [42793]),
  (42794, [42795]), (42796, [42797]), (42798, [42799]), (42802, [42803]), (42804, [42805]),
  (42806, [42807]), (42808, [42809]), (42810, [42811]), (42812, [42813]), (42814, [42815]),
  (42816, [42817]), (42818, [42819]), (42820, [42821]), (42822, [42823]), (42824, [42825]),
  (42826, [42827]), (42828, [42829]), (42830, [42831]), (42832, [42833]), (42834, [42835]),
  (42836, [42837]), (42838, [42839]), (42840, [42841]), (42842, [42843]), (42844, [42845]),
  (42846, [42847]), (42848, [42849]), (42850, [42851]), (42852, [42853]), (42854, [42855]),
  (42856, [42857]), (42858, [42859]), (42860, [42861]), (42862, [42863]), (42873, [42874]),
  (42875, [42876]), (42877, [7545]), (42878, [42879]), (42880, [42881]), (42882, [42883]),
  (42884, [42885]), (42886, [42887]), (42891, [42892]), (42893, [613]), (42896, [42897]),
  (42898, [42899]), (42902, [42903]), (42904, [42905]), (42906, [42907]), (42908, [42909]),
  (42910, [42911]), (42912, [42913]), (42914, [42915]), (42916, [42917]), (42918, [42919]),
  (42920, [42921]), (42922, [614]), (42923, [604]), (42924, [609]), (42925, [620]),
  (42926, [618]), (42928, [670]), (42929, [647]), (42930, [669]), (42931, [43859]),
  (42932, [42933]), (42934, [42935]), (42936, [42937]), (42938, [42939]), (42940, [42941]),
  (42942, [42943]), (42944, [42945]), (42946, [42947]), (42948, [42900]), (42949, [642]),
  (42950, [7566]), (42951, [42952]), (42953, [42954]), (42960, [42961]), (42966, [42967]),
  (42968, [42969]), (42997, [42998]), (65313, [65345]), (65314, [65346]), (65315, [65347]),
  (65316, [65348]), (65317, [65349]), (65318, [65350]), (65319, [65351]), (65320, [65352]),
  (65321, [65353]), (65322, [65354]), (65323, [65355]), (65324, [65356]), (65325, [65357]),
  (65326, [65358]), (65327, [65359]), (65328, [65360]), (65329, [65361]), (65330, [65362]),
  (65331, [65363]), (65332, [65364]), (65333, [65365]), (65334, [65366]), (65335, [65367]),
  (65336, [65368]), (65337, [65369]), (65338, [65370]), (66560, [66600]), (66561, [66601]),
  (66562, [66602]), (66563, [66603]), (66564, [66604]), (66565, [66605]), (66566, [66606]),
  (66567, [66607]), (66568, [66608]), (66569, [66609]), (66570, [66610]), (66571, [66611]),
  (66572, [66612]), (66573, [66613]), (66574, [66614]), (66575, [66615]), (66576, [66616]),
  (66577, [66617]), (66578, [66618]), (66579, [66619]), (66580, [66620]), (66581, [66621]),
  (66582, [66622]), (66583, [66623]), (66584, [66624]), (66585, [66625]), (66586, [66626]),
  (66587, [66627]), (66588, [66628]), (66589, [66629]), (66590, [66630]), (66591, [66631]),
  (66592, [66632]), (66593, [66633]), (66594, [66634]), (66595, [66635]), (66596, [66636]),
  (66597, [66637]), (66598, [66638]), (66599, [66639]), (66736, [66776]), (66737, [66777]),
  (66738, [66778]), (66739, [66779]), (66740, [66780]), (66741, [66781]), (66742, [66782]),
  (66743, [66783]), (66744, [66784]), (66745, [66785]), (66746, [66786]), (66747, [66787]),
  (66748, [66788]), (66749, [66789]), (66750, [66790]), (66751, [66791]), (66752, [66792]),
  (66753, [66793]), (66754, [66794]), (66755, [66795]), (66756, [66796]), (66757, [66797]),
  (66758, [66798]), (66759, [66799]), (66760, [66800]), (66761, [66801]), (66762, [66802]),
  (66763, [66803]), (66764, [66804]), (66765, [66805]), (66766, [66806]), (66767, [66807]),
  (66768, [66808]), (66769, [66809]), (66770, [66810]), (66771, [66811]), (66928, [66967]),
  (66929, [66968]), (66930, [66969]), (66931, [66970]), (66932, [66971]), (66933, [66972]),
  (66934, [66973]), (66935, [66974]), (66936, [66975]), (66937, [66976]), (66938, [66977]),
  (66940, [66979]), (66941, [66980]), (66942, [66981]), (66943, [66982]), (66944, [66983]),
  (66945, [66984]), (66946, [66985]), (66947, [66986]), (66948, [66987]), (66949, [66988]),
  (66950, [66989]), (66951, [66990]), (66952, [66991]), (66953, [66992]), (66954, [66993]),
  (66956, [66995]), (66957, [66996]), (66958, [66997]), (66959, [66998]), (66960, [66999]),
  (66961, [67000]), (66962, [67001]), (66964, [67003]), (66965, [67004]), (68736, [68800]),
  (68737, [68801]), (68738, [68802]), (68739, [68803]), (68740, [68804]), (68741, [68805]),
  (68742, [68806]), (68743, [68807]), (68744, [68808]), (68745, [68809]), (68746, [68810]),
  (68747, [68811]), (68748, [68812]), (68749, [68813]), (68750, [68814]), (68751, [68815]),
  (68752, [68816]), (68753, [68817]), (68754, [68818]), (68755, [68819]), (68756, [68820]),
  (68757, [68821]), (68758, [68822]), (68759, [68823]), (68760, [68824]), (68761, [68825]),
  (68762, [68826]), (68763, [68827]), (68764, [68828]), (68765, [68829]), (68766, [68830]),
  (68767, [68831]), (68768, [68832]), (68769, [68833]), (68770, [68834]), (68771, [68835]),
  (68772, [68836]), (68773, [68837]), (68774, [68838]), (68775, [68839]), (68776, [68840]),
  (68777, [68841]), (68778, [68842]), (68779, [68843]), (68780, [68844]), (68781, [68845]),
  (68782, [68846]), (68783, [68847]), (68784, [68848]), (68785, [68849]), (68786, [68850]),
  (71840, [71872]), (71841, [71873]), (71842, [71874]), (71843, [71875]), (71844, [71876]),
  (71845, [71877]), (71846, [71878]), (71847, [71879]), (71848, [71880]), (71849, [71881]),
  (71850, [71882]), (71851, [71883]), (71852, [71884]), (71853, [71885]), (71854, [71886]),
  (71855, [71887]), (71856, [71888]), (71857, [71889]), (71858, [71890]), (71859, [71891]),
  (71860, [71892]), (71861, [71893]), (71862, [71894]), (71863, [71895]), (71864, [71896]),
  (71865, [71897]), (71866, [71898]), (71867, [71899]), (71868, [71900]), (71869, [71901]),
  (71870, [71902]), (71871, [71903]), (93760, [93792]), (93761, [93793]), (93762, [93794]),
  (93763, [93795]), (93764, [93796]), (93765, [93797]), (93766, [93798]), (93767, [93799]),
  (93768, [93800]), (93769, [93801]), (93770, [93802]), (93771, [93803]), (93772, [93804]),
  (93773, [93805]), (93774, [93806]), (93775, [93807]), (93776, [93808]), (93777, [93809]),
  (93778, [93810]), (93779, [93811]), (93780, [93812]), (93781, [93813]), (93782, [93814]),
  (93783, [93815]), (93784, [93816]), (93785, [93817]), (93786, [93818]), (93787, [93819]),
  (93788, [93820]), (93789, [93821]), (93790, [93822]), (93791, [93823]), (125184, [125218]),
  (125185, [125219]), (125186, [125220]), (125187, [125221]), (125188, [125222]), (125189, [125223]),
  (125190, [125224]), (125191, [125225]), (125192, [125226]), (125193, [125227]), (125194, [125228]),
  (125195, [125229]), (125196, [125230]), (125197, [125231]), (125198, [125232]), (125199, [125233]),
  (125200, [125234]), (125201, [125235]), (125202, [125236]), (125203, [125237]), (125204, [125238]),
  (125205, [125239]), (125206, [125240]), (125207, [125241]), (125208, [125242]), (125209, [125243]),
  (125210, [125244]), (125211, [125245]), (125212, [125246]), (125213, [125247]), (125214, [125248]),
  (125215, [125249]), (125216, [125250]), (125217, [125251])]

set_option maxHeartbeats 4000000 in
set_option maxRecDepth 16000 in
/-- The lowercase mapping arranged as a balanced search tree; its in-order
contents are exactly `lowerTable` (certified below). -/
def lowerTree : LTree :=
  .node (.node (.node (.node (.node (.node (.node (.node (.node (.node (.node .leaf 65 [97]
    .leaf) 66 [98] .leaf) 67 [99] (.node (.node .leaf 68 [100] .leaf) 69 [101] .leaf)) 70 [102]
    (.node (.node (.node .leaf 71 [103] .leaf) 72 [104] .leaf) 73 [105] (.node (.node .leaf 74
    [106] .leaf) 75 [107] .leaf))) 76 [108] (.node (.node (.node (.node .leaf 77 [109] .leaf) 78
    [110] .leaf) 79 [111] (.node (.node .leaf 80 [112] .leaf) 81 [113] .leaf)) 82 [114] (.node
    (.node (.node .leaf 83 [115] .leaf) 84 [116] .leaf) 85 [117] (.node .leaf 86 [118] .leaf))))
    87 [119] (.node (.node (.node (.node (.node .leaf 88 [120] .leaf) 89 [121] .leaf) 90 [122]
    (.node (.node .leaf 192 [224] .leaf) 193 [225] .leaf)) 194 [226] (.node (.node (.node .leaf
    195 [227] .leaf) 196 [228] .leaf) 197 [229] (.node .leaf 198 [230] .leaf))) 199 [231] (.node
    (.node (.node (.node .leaf 200 [232] .leaf) 201 [233] .leaf) 202 [234] (.node (.node .leaf
    203 [235] .leaf) 204 [236] .leaf)) 205 [237] (.node (.node (.node .leaf 206 [238] .leaf) 207
    [239] .leaf) 208 [240] (.node .leaf 209 [241] .leaf))))) 210 [242] (.node (.node (.node
    (.node (.node (.node .leaf 211 [243] .leaf) 212 [244] .leaf) 213 [245] (.node (.node .leaf
    214 [246] .leaf) 216 [248] .leaf)) 217 [249] (.node (.node (.node .leaf 218 [250] .leaf) 219
    [251] .leaf) 220 [252] (.node (.node .leaf 221 [253] .leaf) 222 [254] .leaf))) 256 [257]
    (.node (.node (.node (.node .leaf 258 [259] .leaf) 260 [261] .leaf) 262 [263] (.node (.node
    .leaf 264 [265] .leaf) 266 [267] .leaf)) 268 [269] (.node (.node (.node .leaf 270 [271]
    .leaf) 272 [273] .leaf) 274 [275] (.node .leaf 276 [277] .leaf)))) 278 [279] (.node (.node
    (.node (.node (.node .leaf 280 [281] .leaf) 282 [283] .leaf) 284 [285] (.node (.node .leaf
    286 [287] .leaf) 288 [289] .leaf)) 290 [291] (.node (.node (.node .leaf 292 [293] .leaf) 294
    [295] .leaf) 296 [297] (.node .leaf 298 [299] .leaf))) 300 [301] (.node (.node (.node (.node
    .leaf 302 [303] .leaf) 304 [105, 775] .leaf) 306 [307] (.node (.node .leaf 308 [309] .leaf)
    310 [311] .leaf)) 313 [314] (.node (.node (.node .leaf 315 [316] .leaf) 317 [318] .leaf) 319
    [320] (.node .leaf 321 [322] .leaf)))))) 323 [324] (.node (.node (.node (.node (.node (.node
    (.node .leaf 325 [326] .leaf) 327 [328] .leaf) 330 [331] (.node (.node .leaf 332 [333] .leaf)
    334 [335] .leaf)) 336 [337] (.node (.node (.node .leaf 338 [339] .leaf) 340 [341] .leaf) 342
    [343] (.node (.node .leaf 344 [345] .leaf) 346 [347] .leaf))) 348 [349] (.node (.node (.node
    (.node .leaf 350 [351] .leaf) 352 [353] .leaf) 354 [355] (.node (.node .leaf 356 [357] .leaf)
    358 [359] .leaf)) 360 [361] (.node (.node (.node .leaf 362 [363] .leaf) 364 [365] .leaf) 366
    [367] (.node .leaf 368 [369] .leaf)))) 370 [371] (.node (.node (.node (.node (.node .leaf 372
    [373] .leaf) 374 [375] .leaf) 376 [255] (.node (.node .leaf 377 [378] .leaf) 379 [380]
    .leaf)) 381 [382] (.node (.node (.node .leaf 385 [595] .leaf) 386 [387] .leaf) 388 [389]
    (.node .leaf 390 [596] .leaf))) 391 [392] (.node (.node (.node (.node .leaf 393 [598] .leaf)
    394 [599] .leaf) 395 [396] (.node (.node .leaf 398 [477] .leaf) 399 [601] .leaf)) 400 [603]
    (.node (.node (.node .leaf 401 [402] .leaf) 403 [608] .leaf) 404 [611] (.node .leaf 406 [617]
    .leaf))))) 407 [616] (.node (.node (.node (.node (.node (.node .leaf 408 [409] .leaf) 412
    [623] .leaf) 413 [626] (.node (.node .leaf 415 [629] .leaf) 416 [417] .leaf)) 418 [419]
    (.node (.node (.node .leaf 420 [421] .leaf) 422 [640] .leaf) 423 [424] (.node (.node .leaf
    425 [643] .leaf) 428 [429] .leaf))) 430 [648] (.node (.node (.node (.node .leaf 431 [432]
    .leaf) 433 [650] .leaf) 434 [651] (.node (.node .leaf 435 [436] .leaf) 437 [438] .leaf)) 439
    [658] (.node (.node (.node .leaf 440 [441] .leaf) 444 [445] .leaf) 452 [454] (.node .leaf 453
    [454] .leaf)))) 455 [457] (.node (.node (.node (.node (.node .leaf 456 [457] .leaf) 458 [460]
    .leaf) 459 [460] (.node (.node .leaf 461 [462] .leaf) 463 [464] .leaf)) 465 [466] (.node
    (.node (.node .leaf 467 [468] .leaf) 469 [470] .leaf) 471 [472] (.node .leaf 473 [474]
    .leaf))) 475 [476] (.node (.node (.node (.node .leaf 478 [479] .leaf) 480 [481] .leaf) 482
    [483] (.node (.node .leaf 484 [485] .leaf) 486 [487] .leaf)) 488 [489] (.node (.node (.node
    .leaf 490 [491] .leaf) 492 [493] .leaf) 494 [495] (.node .leaf 497 [499] .leaf))))))) 498
    [499] (.node (.node (.node (.node (.node (.node (.node (.node .leaf 500 [501] .leaf) 502
    [405] .leaf) 503 [447] (.node (.node .leaf 504 [505] .leaf) 506 [507] .leaf)) 508 [509]
    (.node (.node (.node .leaf 510 [511] .leaf) 512 [513] .leaf) 514 [515] (.node (.node .leaf
    516 [517] .leaf) 518 [519] .leaf))) 520 [521] (.node (.node (.node (.node .leaf 522 [523]
    .leaf) 524 [525] .leaf) 526 [527] (.node (.node .leaf 528 [529] .leaf) 530 [531] .leaf)) 532
    [533] (.node (.node (.node .leaf 534 [535] .leaf) 536 [537] .leaf) 538 [539] (.node .leaf 540
    [541] .leaf)))) 542 [543] (.node (.node (.node (.node (.node .leaf 544 [414] .leaf) 546 [547]
    .leaf) 548 [549] (.node (.node .leaf 550 [551] .leaf) 552 [553] .leaf)) 554 [555] (.node
    (.node (.node .leaf 556 [557] .leaf) 558 [559] .leaf) 560 [561] (.node .leaf 562 [563]
    .leaf))) 570 [11365] (.node (.node (.node (.node .leaf 571 [572] .leaf) 573 [410] .leaf) 574
    [11366] (.node (.node .leaf 577 [578] .leaf) 579 [384] .leaf)) 580 [649] (.node (.node (.node
    .leaf 581 [652] .leaf) 582 [583] .leaf) 584 [585] (.node .leaf 586 [587] .leaf))))) 588 [589]
    (.node (.node (.node (.node (.node (.node .leaf 590 [591] .leaf) 880 [881] .leaf) 882 [883]
    (.node (.node .leaf 886 [887] .leaf) 895 [1011] .leaf)) 902 [940] (.node (.node (.node .leaf
    904 [941] .leaf) 905 [942] .leaf) 906 [943] (.node (.node .leaf 908 [972] .leaf) 910 [973]
    .leaf))) 911 [974] (.node (.node (.node (.node .leaf 913 [945] .leaf) 914 [946] .leaf) 915
    [947] (.node (.node .leaf 916 [948] .leaf) 917 [949] .leaf)) 918 [950] (.node (.node (.node
    .leaf 919 [951] .leaf) 920 [952] .leaf) 921 [953] (.node .leaf 922 [954] .leaf)))) 923 [955]
    (.node (.node (.node (.node (.node .leaf 924 [956] .leaf) 925 [957] .leaf) 926 [958] (.node
    (.node .leaf 927 [959] .leaf) 928 [960] .leaf)) 929 [961] (.node (.node (.node .leaf 931
    [963] .leaf) 932 [964] .leaf) 933 [965] (.node .leaf 934 [966] .leaf))) 935 [967] (.node
    (.node (.node (.node .leaf 936 [968] .leaf) 937 [969] .leaf) 938 [970] (.node (.node .leaf
    939 [971] .leaf) 975 [983] .leaf)) 984 [985] (.node (.node (.node .leaf 986 [987] .leaf) 988
    [989] .leaf) 990 [991] (.node .leaf 992 [993] .leaf)))))) 994 [995] (.node (.node (.node
    (.node (.node (.node (.node .leaf 996 [997] .leaf) 998 [999] .leaf) 1000 [1001] (.node (.node
    .leaf 1002 [1003] .leaf) 1004 [1005] .leaf)) 1006 [1007] (.node (.node (.node .leaf 1012
    [952] .leaf) 1015 [1016] .leaf) 1017 [1010] (.node (.node .leaf 1018 [1019] .leaf) 1021 [891]
    .leaf))) 1022 [892] (.node (.node (.node (.node .leaf 1023 [893] .leaf) 1024 [1104] .leaf)
    1025 [1105] (.node (.node .leaf 1026 [1106] .leaf) 1027 [1107] .leaf)) 1028 [1108] (.node
    (.node (.node .leaf 1029 [1109] .leaf) 1030 [1110] .leaf) 1031 [1111] (.node .leaf 1032
    [1112] .leaf)))) 1033 [1113] (.node (.node (.node (.node (.node .leaf 1034 [1114] .leaf) 1035
    [1115] .leaf) 1036 [1116] (.node (.node .leaf 1037 [1117] .leaf) 1038 [1118] .leaf)) 1039
    [1119] (.node (.node (.node .leaf 1040 [1072] .leaf) 1041 [1073] .leaf) 1042 [1074] (.node
    .leaf 1043 [1075] .leaf))) 1044 [1076] (.node (.node (.node (.node .leaf 1045 [1077] .leaf)
    1046 [1078] .leaf) 1047 [1079] (.node (.node .leaf 1048 [1080] .leaf) 1049 [1081] .leaf))
    1050 [1082] (.node (.node (.node .leaf 1051 [1083] .leaf) 1052 [1084] .leaf) 1053 [1085]
    (.node .leaf 1054 [1086] .leaf))))) 1055 [1087] (.node (.node (.node (.node (.node (.node
    .leaf 1056 [1088] .leaf) 1057 [1089] .leaf) 1058 [1090] (.node (.node .leaf 1059 [1091]
    .leaf) 1060 [1092] .leaf)) 1061 [1093] (.node (.node (.node .leaf 1062 [1094] .leaf) 1063
    [1095] .leaf) 1064 [1096] (.node .leaf 1065 [1097] .leaf))) 1066 [1098] (.node (.node (.node
    (.node .leaf 1067 [1099] .leaf) 1068 [1100] .leaf) 1069 [1101] (.node (.node .leaf 1070
    [1102] .leaf) 1071 [1103] .leaf)) 1120 [1121] (.node (.node (.node .leaf 1122 [1123] .leaf)
    1124 [1125] .leaf) 1126 [1127] (.node .leaf 1128 [1129] .leaf)))) 1130 [1131] (.node (.node
    (.node (.node (.node .leaf 1132 [1133] .leaf) 1134 [1135] .leaf) 1136 [1137] (.node (.node
    .leaf 1138 [1139] .leaf) 1140 [1141] .leaf)) 1142 [1143] (.node (.node (.node .leaf 1144
    [1145] .leaf) 1146 [1147] .leaf) 1148 [1149] (.node .leaf 1150 [1151] .leaf))) 1152 [1153]
    (.node (.node (.node (.node .leaf 1162 [1163] .leaf) 1164 [1165] .leaf) 1166 [1167] (.node
    (.node .leaf 1168 [1169] .leaf) 1170 [1171] .leaf)) 1172 [1173] (.node (.node (.node .leaf
    1174 [1175] .leaf) 1176 [1177] .leaf) 1178 [1179] (.node .leaf 1180 [1181] .leaf)))))))) 1182
    [1183] (.node (.node (.node (.node (.node (.node (.node (.node (.node .leaf 1184 [1185]
    .leaf) 1186 [1187] .leaf) 1188 [1189] (.node (.node .leaf 1190 [1191] .leaf) 1192 [1193]
    .leaf)) 1194 [1195] (.node (.node (.node .leaf 1196 [1197] .leaf) 1198 [1199] .leaf) 1200
    [1201] (.node (.node .leaf 1202 [1203] .leaf) 1204 [1205] .leaf))) 1206 [1207] (.node (.node
    (.node (.node .leaf 1208 [1209] .leaf) 1210 [1211] .leaf) 1212 [1213] (.node (.node .leaf
    1214 [1215] .leaf) 1216 [1231] .leaf)) 1217 [1218] (.node (.node (.node .leaf 1219 [1220]
    .leaf) 1221 [1222] .leaf) 1223 [1224] (.node .leaf 1225 [1226] .leaf)))) 1227 [1228] (.node
    (.node (.node (.node (.node .leaf 1229 [1230] .leaf) 1232 [1233] .leaf) 1234 [1235] (.node
    (.node .leaf 1236 [1237] .leaf) 1238 [1239] .leaf)) 1240 [1241] (.node (.node (.node .leaf
    1242 [1243] .leaf) 1244 [1245] .leaf) 1246 [1247] (.node .leaf 1248 [1249] .leaf))) 1250
    [1251] (.node (.node (.node (.node .leaf 1252 [1253] .leaf) 1254 [1255] .leaf) 1256 [1257]
    (.node (.node .leaf 1258 [1259] .leaf) 1260 [1261] .leaf)) 1262 [1263] (.node (.node (.node
    .leaf 1264 [1265] .leaf) 1266 [1267] .leaf) 1268 [1269] (.node .leaf 1270 [1271] .leaf)))))
    1272 [1273] (.node (.node (.node (.node (.node (.node .leaf 1274 [1275] .leaf) 1276 [1277]
    .leaf) 1278 [1279] (.node (.node .leaf 1280 [1281] .leaf) 1282 [1283] .leaf)) 1284 [1285]
    (.node (.node (.node .leaf 1286 [1287] .leaf) 1288 [1289] .leaf) 1290 [1291] (.node (.node
    .leaf 1292 [1293] .leaf) 1294 [1295] .leaf))) 1296 [1297] (.node (.node (.node (.node .leaf
    1298 [1299] .leaf) 1300 [1301] .leaf) 1302 [1303] (.node (.node .leaf 1304 [1305] .leaf) 1306
    [1307] .leaf)) 1308 [1309] (.node (.node (.node .leaf 1310 [1311] .leaf) 1312 [1313] .leaf)
    1314 [1315] (.node .leaf 1316 [1317] .leaf)))) 1318 [1319] (.node (.node (.node (.node (.node
    .leaf 1320 [1321] .leaf) 1322 [1323] .leaf) 1324 [1325] (.node (.node .leaf 1326 [1327]
    .leaf) 1329 [1377] .leaf)) 1330 [1378] (.node (.node (.node .leaf 1331 [1379] .leaf) 1332
    [1380] .leaf) 1333 [1381] (.node .leaf 1334 [1382] .leaf))) 1335 [1383] (.node (.node (.node
    (.node .leaf 1336 [1384] .leaf) 1337 [1385] .leaf) 1338 [1386] (.node (.node .leaf 1339
    [1387] .leaf) 1340 [1388] .leaf)) 1341 [1389] (.node (.node (.node .leaf 1342 [1390] .leaf)
    1343 [1391] .leaf) 1344 [1392] (.node .leaf 1345 [1393] .leaf)))))) 1346 [1394] (.node (.node
    (.node (.node (.node (.node (.node .leaf 1347 [1395] .leaf) 1348 [1396] .leaf) 1349 [1397]
    (.node (.node .leaf 1350 [1398] .leaf) 1351 [1399] .leaf)) 1352 [1400] (.node (.node (.node
    .leaf 1353 [1401] .leaf) 1354 [1402] .leaf) 1355 [1403] (.node (.node .leaf 1356 [1404]
    .leaf) 1357 [1405] .leaf))) 1358 [1406] (.node (.node (.node (.node .leaf 1359 [1407] .leaf)
    1360 [1408] .leaf) 1361 [1409] (.node (.node .leaf 1362 [1410] .leaf) 1363 [1411] .leaf))
    1364 [1412] (.node (.node (.node .leaf 1365 [1413] .leaf) 1366 [1414] .leaf) 4256 [11520]
    (.node .leaf 4257 [11521] .leaf)))) 4258 [11522] (.node (.node (.node (.node (.node .leaf
    4259 [11523] .leaf) 4260 [11524] .leaf) 4261 [11525] (.node (.node .leaf 4262 [11526] .leaf)
    4263 [11527] .leaf)) 4264 [11528] (.node (.node (.node .leaf 4265 [11529] .leaf) 4266 [11530]
    .leaf) 4267 [11531] (.node .leaf 4268 [11532] .leaf))) 4269 [11533] (.node (.node (.node
    (.node .leaf 4270 [11534] .leaf) 4271 [11535] .leaf) 4272 [11536] (.node (.node .leaf 4273
    [11537] .leaf) 4274 [11538] .leaf)) 4275 [11539] (.node (.node (.node .leaf 4276 [11540]
    .leaf) 4277 [11541] .leaf) 4278 [11542] (.node .leaf 4279 [11543] .leaf))))) 4280 [11544]
    (.node (.node (.node (.node (.node (.node .leaf 4281 [11545] .leaf) 4282 [11546] .leaf) 4283
    [11547] (.node (.node .leaf 4284 [11548] .leaf) 4285 [11549] .leaf)) 4286 [11550] (.node
    (.node (.node .leaf 4287 [11551] .leaf) 4288 [11552] .leaf) 4289 [11553] (.node .leaf 4290
    [11554] .leaf))) 4291 [11555] (.node (.node (.node (.node .leaf 4292 [11556] .leaf) 4293
    [11557] .leaf) 4295 [11559] (.node (.node .leaf 4301 [11565] .leaf) 5024 [43888] .leaf)) 5025
    [43889] (.node (.node (.node .leaf 5026 [43890] .leaf) 5027 [43891] .leaf) 5028 [43892]
    (.node .leaf 5029 [43893] .leaf)))) 5030 [43894] (.node (.node (.node (.node (.node .leaf
    5031 [43895] .leaf) 5032 [43896] .leaf) 5033 [43897] (.node (.node .leaf 5034 [43898] .leaf)
    5035 [43899] .leaf)) 5036 [43900] (.node (.node (.node .leaf 5037 [43901] .leaf) 5038 [43902]
    .leaf) 5039 [43903] (.node .leaf 5040 [43904] .leaf))) 5041 [43905] (.node (.node (.node
    (.node .leaf 5042 [43906] .leaf) 5043 [43907] .leaf) 5044 [43908] (.node (.node .leaf 5045
    [43909] .leaf) 5046 [43910] .leaf)) 5047 [43911] (.node (.node (.node .leaf 5048 [43912]
    .leaf) 5049 [43913] .leaf) 5050 [43914] (.node .leaf 5051 [43915] .leaf))))))) 5052 [43916]
    (.node (.node (.node (.node (.node (.node (.node (.node .leaf 5053 [43917] .leaf) 5054
    [43918] .leaf) 5055 [43919] (.node (.node .leaf 5056 [43920] .leaf) 5057 [43921] .leaf)) 5058
    [43922] (.node (.node (.node .leaf 5059 [43923] .leaf) 5060 [43924] .leaf) 5061 [43925]
    (.node (.node .leaf 5062 [43926] .leaf) 5063 [43927] .leaf))) 5064 [43928] (.node (.node
    (.node (.node .leaf 5065 [43929] .leaf) 5066 [43930] .leaf) 5067 [43931] (.node (.node .leaf
    5068 [43932] .leaf) 5069 [43933] .leaf)) 5070 [43934] (.node (.node (.node .leaf 5071 [43935]
    .leaf) 5072 [43936] .leaf) 5073 [43937] (.node .leaf 5074 [43938] .leaf)))) 5075 [43939]
    (.node (.node (.node (.node (.node .leaf 5076 [43940] .leaf) 5077 [43941] .leaf) 5078 [43942]
    (.node (.node .leaf 5079 [43943] .leaf) 5080 [43944] .leaf)) 5081 [43945] (.node (.node
    (.node .leaf 5082 [43946] .leaf) 5083 [43947] .leaf) 5084 [43948] (.node .leaf 5085 [43949]
    .leaf))) 5086 [43950] (.node (.node (.node (.node .leaf 5087 [43951] .leaf) 5088 [43952]
    .leaf) 5089 [43953] (.node (.node .leaf 5090 [43954] .leaf) 5091 [43955] .leaf)) 5092 [43956]
    (.node (.node (.node .leaf 5093 [43957] .leaf) 5094 [43958] .leaf) 5095 [43959] (.node .leaf
    5096 [43960] .leaf))))) 5097 [43961] (.node (.node (.node (.node (.node (.node .leaf 5098
    [43962] .leaf) 5099 [43963] .leaf) 5100 [43964] (.node (.node .leaf 5101 [43965] .leaf) 5102
    [43966] .leaf)) 5103 [43967] (.node (.node (.node .leaf 5104 [5112] .leaf) 5105 [5113] .leaf)
    5106 [5114] (.node (.node .leaf 5107 [5115] .leaf) 5108 [5116] .leaf))) 5109 [5117] (.node
    (.node (.node (.node .leaf 7312 [4304] .leaf) 7313 [4305] .leaf) 7314 [4306] (.node (.node
    .leaf 7315 [4307] .leaf) 7316 [4308] .leaf)) 7317 [4309] (.node (.node (.node .leaf 7318
    [4310] .leaf) 7319 [4311] .leaf) 7320 [4312] (.node .leaf 7321 [4313] .leaf)))) 7322 [4314]
    (.node (.node (.node (.node (.node .leaf 7323 [4315] .leaf) 7324 [4316] .leaf) 7325 [4317]
    (.node (.node .leaf 7326 [4318] .leaf) 7327 [4319] .leaf)) 7328 [4320] (.node (.node (.node
    .leaf 7329 [4321] .leaf) 7330 [4322] .leaf) 7331 [4323] (.node .leaf 7332 [4324] .leaf)))
    7333 [4325] (.node (.node (.node (.node .leaf 7334 [4326] .leaf) 7335 [4327] .leaf) 7336
    [4328] (.node (.node .leaf 7337 [4329] .leaf) 7338 [4330] .leaf)) 7339 [4331] (.node (.node
    (.node .leaf 7340 [4332] .leaf) 7341 [4333] .leaf) 7342 [4334] (.node .leaf 7343 [4335]
    .leaf)))))) 7344 [4336] (.node (.node (.node (.node (.node (.node (.node .leaf 7345 [4337]
    .leaf) 7346 [4338] .leaf) 7347 [4339] (.node (.node .leaf 7348 [4340] .leaf) 7349 [4341]
    .leaf)) 7350 [4342] (.node (.node (.node .leaf 7351 [4343] .leaf) 7352 [4344] .leaf) 7353
    [4345] (.node (.node .leaf 7354 [4346] .leaf) 7357 [4349] .leaf))) 7358 [4350] (.node (.node
    (.node (.node .leaf 7359 [4351] .leaf) 7680 [7681] .leaf) 7682 [7683] (.node (.node .leaf
    7684 [7685] .leaf) 7686 [7687] .leaf)) 7688 [7689] (.node (.node (.node .leaf 7690 [7691]
    .leaf) 7692 [7693] .leaf) 7694 [7695] (.node .leaf 7696 [7697] .leaf)))) 7698 [7699] (.node
    (.node (.node (.node (.node .leaf 7700 [7701] .leaf) 7702 [7703] .leaf) 7704 [7705] (.node
    (.node .leaf 7706 [7707] .leaf) 7708 [7709] .leaf)) 7710 [7711] (.node (.node (.node .leaf
    7712 [7713] .leaf) 7714 [7715] .leaf) 7716 [7717] (.node .leaf 7718 [7719] .leaf))) 7720
    [7721] (.node (.node (.node (.node .leaf 7722 [7723] .leaf) 7724 [7725] .leaf) 7726 [7727]
    (.node (.node .leaf 7728 [7729] .leaf) 7730 [7731] .leaf)) 7732 [7733] (.node (.node (.node
    .leaf 7734 [7735] .leaf) 7736 [7737] .leaf) 7738 [7739] (.node .leaf 7740 [7741] .leaf)))))
    7742 [7743] (.node (.node (.node (.node (.node (.node .leaf 7744 [7745] .leaf) 7746 [7747]
    .leaf) 7748 [7749] (.node (.node .leaf 7750 [7751] .leaf) 7752 [7753] .leaf)) 7754 [7755]
    (.node (.node (.node .leaf 7756 [7757] .leaf) 7758 [7759] .leaf) 7760 [7761] (.node .leaf
    7762 [7763] .leaf))) 7764 [7765] (.node (.node (.node (.node .leaf 7766 [7767] .leaf) 7768
    [7769] .leaf) 7770 [7771] (.node (.node .leaf 7772 [7773] .leaf) 7774 [7775] .leaf)) 7776
    [7777] (.node (.node (.node .leaf 7778 [7779] .leaf) 7780 [7781] .leaf) 7782 [7783] (.node
    .leaf 7784 [7785] .leaf)))) 7786 [7787] (.node (.node (.node (.node (.node .leaf 7788 [7789]
    .leaf) 7790 [7791] .leaf) 7792 [7793] (.node (.node .leaf 7794 [7795] .leaf) 7796 [7797]
    .leaf)) 7798 [7799] (.node (.node (.node .leaf 7800 [7801] .leaf) 7802 [7803] .leaf) 7804
    [7805] (.node .leaf 7806 [7807] .leaf))) 7808 [7809] (.node (.node (.node (.node .leaf 7810
    [7811] .leaf) 7812 [7813] .leaf) 7814 [7815] (.node (.node .leaf 7816 [7817] .leaf) 7818
    [7819] .leaf)) 7820 [7821] (.node (.node (.node .leaf 7822 [7823] .leaf) 7824 [7825] .leaf)
    7826 [7827] (.node .leaf 7828 [7829] .leaf))))))))) 7838 [223] (.node (.node (.node (.node
    (.node (.node (.node (.node (.node (.node .leaf 7840 [7841] .leaf) 7842 [7843] .leaf) 7844
    [7845] (.node (.node .leaf 7846 [7847] .leaf) 7848 [7849] .leaf)) 7850 [7851] (.node (.node
    (.node .leaf 7852 [7853] .leaf) 7854 [7855] .leaf) 7856 [7857] (.node (.node .leaf 7858
    [7859] .leaf) 7860 [7861] .leaf))) 7862 [7863] (.node (.node (.node (.node .leaf 7864 [7865]
    .leaf) 7866 [7867] .leaf) 7868 [7869] (.node (.node .leaf 7870 [7871] .leaf) 7872 [7873]
    .leaf)) 7874 [7875] (.node (.node (.node .leaf 7876 [7877] .leaf) 7878 [7879] .leaf) 7880
    [7881] (.node .leaf 7882 [7883] .leaf)))) 7884 [7885] (.node (.node (.node (.node (.node
    .leaf 7886 [7887] .leaf) 7888 [7889] .leaf) 7890 [7891] (.node (.node .leaf 7892 [7893]
    .leaf) 7894 [7895] .leaf)) 7896 [7897] (.node (.node (.node .leaf 7898 [7899] .leaf) 7900
    [7901] .leaf) 7902 [7903] (.node .leaf 7904 [7905] .leaf))) 7906 [7907] (.node (.node (.node
    (.node .leaf 7908 [7909] .leaf) 7910 [7911] .leaf) 7912 [7913] (.node (.node .leaf 7914
    [7915] .leaf) 7916 [7917] .leaf)) 7918 [7919] (.node (.node (.node .leaf 7920 [7921] .leaf)
    7922 [7923] .leaf) 7924 [7925] (.node .leaf 7926 [7927] .leaf))))) 7928 [7929] (.node (.node
    (.node (.node (.node (.node .leaf 7930 [7931] .leaf) 7932 [7933] .leaf) 7934 [7935] (.node
    (.node .leaf 7944 [7936] .leaf) 7945 [7937] .leaf)) 7946 [7938] (.node (.node (.node .leaf
    7947 [7939] .leaf) 7948 [7940] .leaf) 7949 [7941] (.node (.node .leaf 7950 [7942] .leaf) 7951
    [7943] .leaf))) 7960 [7952] (.node (.node (.node (.node .leaf 7961 [7953] .leaf) 7962 [7954]
    .leaf) 7963 [7955] (.node (.node .leaf 7964 [7956] .leaf) 7965 [7957] .leaf)) 7976 [7968]
    (.node (.node (.node .leaf 7977 [7969] .leaf) 7978 [7970] .leaf) 7979 [7971] (.node .leaf
    7980 [7972] .leaf)))) 7981 [7973] (.node (.node (.node (.node (.node .leaf 7982 [7974] .leaf)
    7983 [7975] .leaf) 7992 [7984] (.node (.node .leaf 7993 [7985] .leaf) 7994 [7986] .leaf))
    7995 [7987] (.node (.node (.node .leaf 7996 [7988] .leaf) 7997 [7989] .leaf) 7998 [7990]
    (.node .leaf 7999 [7991] .leaf))) 8008 [8000] (.node (.node (.node (.node .leaf 8009 [8001]
    .leaf) 8010 [8002] .leaf) 8011 [8003] (.node (.node .leaf 8012 [8004] .leaf) 8013 [8005]
    .leaf)) 8025 [8017] (.node (.node (.node .leaf 8027 [8019] .leaf) 8029 [8021] .leaf) 8031
    [8023] (.node .leaf 8040 [8032] .leaf)))))) 8041 [8033] (.node (.node (.node (.node (.node
    (.node (.node .leaf 8042 [8034] .leaf) 8043 [8035] .leaf) 8044 [8036] (.node (.node .leaf
    8045 [8037] .leaf) 8046 [8038] .leaf)) 8047 [8039] (.node (.node (.node .leaf 8072 [8064]
    .leaf) 8073 [8065] .leaf) 8074 [8066] (.node (.node .leaf 8075 [8067] .leaf) 8076 [8068]
    .leaf))) 8077 [8069] (.node (.node (.node (.node .leaf 8078 [8070] .leaf) 8079 [8071] .leaf)
    8088 [8080] (.node (.node .leaf 8089 [8081] .leaf) 8090 [8082] .leaf)) 8091 [8083] (.node
    (.node (.node .leaf 8092 [8084] .leaf) 8093 [8085] .leaf) 8094 [8086] (.node .leaf 8095
    [8087] .leaf)))) 8104 [8096] (.node (.node (.node (.node (.node .leaf 8105 [8097] .leaf) 8106
    [8098] .leaf) 8107 [8099] (.node (.node .leaf 8108 [8100] .leaf) 8109 [8101] .leaf)) 8110
    [8102] (.node (.node (.node .leaf 8111 [8103] .leaf) 8120 [8112] .leaf) 8121 [8113] (.node
    .leaf 8122 [8048] .leaf))) 8123 [8049] (.node (.node (.node (.node .leaf 8124 [8115] .leaf)
    8136 [8050] .leaf) 8137 [8051] (.node (.node .leaf 8138 [8052] .leaf) 8139 [8053] .leaf))
    8140 [8131] (.node (.node (.node .leaf 8152 [8144] .leaf) 8153 [8145] .leaf) 8154 [8054]
    (.node .leaf 8155 [8055] .leaf))))) 8168 [8160] (.node (.node (.node (.node (.node (.node
    .leaf 8169 [8161] .leaf) 8170 [8058] .leaf) 8171 [8059] (.node (.node .leaf 8172 [8165]
    .leaf) 8184 [8056] .leaf)) 8185 [8057] (.node (.node (.node .leaf 8186 [8060] .leaf) 8187
    [8061] .leaf) 8188 [8179] (.node (.node .leaf 8486 [969] .leaf) 8490 [107] .leaf))) 8491
    [229] (.node (.node (.node (.node .leaf 8498 [8526] .leaf) 8544 [8560] .leaf) 8545 [8561]
    (.node (.node .leaf 8546 [8562] .leaf) 8547 [8563] .leaf)) 8548 [8564] (.node (.node (.node
    .leaf 8549 [8565] .leaf) 8550 [8566] .leaf) 8551 [8567] (.node .leaf 8552 [8568] .leaf))))
    8553 [8569] (.node (.node (.node (.node (.node .leaf 8554 [8570] .leaf) 8555 [8571] .leaf)
    8556 [8572] (.node (.node .leaf 8557 [8573] .leaf) 8558 [8574] .leaf)) 8559 [8575] (.node
    (.node (.node .leaf 8579 [8580] .leaf) 9398 [9424] .leaf) 9399 [9425] (.node .leaf 9400
    [9426] .leaf))) 9401 [9427] (.node (.node (.node (.node .leaf 9402 [9428] .leaf) 9403 [9429]
    .leaf) 9404 [9430] (.node (.node .leaf 9405 [9431] .leaf) 9406 [9432] .leaf)) 9407 [9433]
    (.node (.node (.node .leaf 9408 [9434] .leaf) 9409 [9435] .leaf) 9410 [9436] (.node .leaf
    9411 [9437] .leaf))))))) 9412 [9438] (.node (.node (.node (.node (.node (.node (.node (.node
    .leaf 9413 [9439] .leaf) 9414 [9440] .leaf) 9415 [9441] (.node (.node .leaf 9416 [9442]
    .leaf) 9417 [9443] .leaf)) 9418 [9444] (.node (.node (.node .leaf 9419 [9445] .leaf) 9420
    [9446] .leaf) 9421 [9447] (.node (.node .leaf 9422 [9448] .leaf) 9423 [9449] .leaf))) 11264
    [11312] (.node (.node (.node (.node .leaf 11265 [11313] .leaf) 11266 [11314] .leaf) 11267
    [11315] (.node (.node .leaf 11268 [11316] .leaf) 11269 [11317] .leaf)) 11270 [11318] (.node
    (.node (.node .leaf 11271 [11319] .leaf) 11272 [11320] .leaf) 11273 [11321] (.node .leaf
    11274 [11322] .leaf)))) 11275 [11323] (.node (.node (.node (.node (.node .leaf 11276 [11324]
    .leaf) 11277 [11325] .leaf) 11278 [11326] (.node (.node .leaf 11279 [11327] .leaf) 11280
    [11328] .leaf)) 11281 [11329] (.node (.node (.node .leaf 11282 [11330] .leaf) 11283 [11331]
    .leaf) 11284 [11332] (.node .leaf 11285 [11333] .leaf))) 11286 [11334] (.node (.node (.node
    (.node .leaf 11287 [11335] .leaf) 11288 [11336] .leaf) 11289 [11337] (.node (.node .leaf
    11290 [11338] .leaf) 11291 [11339] .leaf)) 11292 [11340] (.node (.node (.node .leaf 11293
    [11341] .leaf) 11294 [11342] .leaf) 11295 [11343] (.node .leaf 11296 [11344] .leaf))))) 11297
    [11345] (.node (.node (.node (.node (.node (.node .leaf 11298 [11346] .leaf) 11299 [11347]
    .leaf) 11300 [11348] (.node (.node .leaf 11301 [11349] .leaf) 11302 [11350] .leaf)) 11303
    [11351] (.node (.node (.node .leaf 11304 [11352] .leaf) 11305 [11353] .leaf) 11306 [11354]
    (.node (.node .leaf 11307 [11355] .leaf) 11308 [11356] .leaf))) 11309 [11357] (.node (.node
    (.node (.node .leaf 11310 [11358] .leaf) 11311 [11359] .leaf) 11360 [11361] (.node (.node
    .leaf 11362 [619] .leaf) 11363 [7549] .leaf)) 11364 [637] (.node (.node (.node .leaf 11367
    [11368] .leaf) 11369 [11370] .leaf) 11371 [11372] (.node .leaf 11373 [593] .leaf)))) 11374
    [625] (.node (.node (.node (.node (.node .leaf 11375 [592] .leaf) 11376 [594] .leaf) 11378
    [11379] (.node (.node .leaf 11381 [11382] .leaf) 11390 [575] .leaf)) 11391 [576] (.node
    (.node (.node .leaf 11392 [11393] .leaf) 11394 [11395] .leaf) 11396 [11397] (.node .leaf
    11398 [11399] .leaf))) 11400 [11401] (.node (.node (.node (.node .leaf 11402 [11403] .leaf)
    11404 [11405] .leaf) 11406 [11407] (.node (.node .leaf 11408 [11409] .leaf) 11410 [11411]
    .leaf)) 11412 [11413] (.node (.node (.node .leaf 11414 [11415] .leaf) 11416 [11417] .leaf)
    11418 [11419] (.node .leaf 11420 [11421] .leaf)))))) 11422 [11423] (.node (.node (.node
    (.node (.node (.node (.node .leaf 11424 [11425] .leaf) 11426 [11427] .leaf) 11428 [11429]
    (.node (.node .leaf 11430 [11431] .leaf) 11432 [11433] .leaf)) 11434 [11435] (.node (.node
    (.node .leaf 11436 [11437] .leaf) 11438 [11439] .leaf) 11440 [11441] (.node (.node .leaf
    11442 [11443] .leaf) 11444 [11445] .leaf))) 11446 [11447] (.node (.node (.node (.node .leaf
    11448 [11449] .leaf) 11450 [11451] .leaf) 11452 [11453] (.node (.node .leaf 11454 [11455]
    .leaf) 11456 [11457] .leaf)) 11458 [11459] (.node (.node (.node .leaf 11460 [11461] .leaf)
    11462 [11463] .leaf) 11464 [11465] (.node .leaf 11466 [11467] .leaf)))) 11468 [11469] (.node
    (.node (.node (.node (.node .leaf 11470 [11471] .leaf) 11472 [11473] .leaf) 11474 [11475]
    (.node (.node .leaf 11476 [11477] .leaf) 11478 [11479] .leaf)) 11480 [11481] (.node (.node
    (.node .leaf 11482 [11483] .leaf) 11484 [11485] .leaf) 11486 [11487] (.node .leaf 11488
    [11489] .leaf))) 11490 [11491] (.node (.node (.node (.node .leaf 11499 [11500] .leaf) 11501
    [11502] .leaf) 11506 [11507] (.node (.node .leaf 42560 [42561] .leaf) 42562 [42563] .leaf))
    42564 [42565] (.node (.node (.node .leaf 42566 [42567] .leaf) 42568 [42569] .leaf) 42570
    [42571] (.node .leaf 42572 [42573] .leaf))))) 42574 [42575] (.node (.node (.node (.node
    (.node (.node .leaf 42576 [42577] .leaf) 42578 [42579] .leaf) 42580 [42581] (.node (.node
    .leaf 42582 [42583] .leaf) 42584 [42585] .leaf)) 42586 [42587] (.node (.node (.node .leaf
    42588 [42589] .leaf) 42590 [42591] .leaf) 42592 [42593] (.node .leaf 42594 [42595] .leaf)))
    42596 [42597] (.node (.node (.node (.node .leaf 42598 [42599] .leaf) 42600 [42601] .leaf)
    42602 [42603] (.node (.node .leaf 42604 [42605] .leaf) 42624 [42625] .leaf)) 42626 [42627]
    (.node (.node (.node .leaf 42628 [42629] .leaf) 42630 [42631] .leaf) 42632 [42633] (.node
    .leaf 42634 [42635] .leaf)))) 42636 [42637] (.node (.node (.node (.node (.node .leaf 42638
    [42639] .leaf) 42640 [42641] .leaf) 42642 [42643] (.node (.node .leaf 42644 [42645] .leaf)
    42646 [42647] .leaf)) 42648 [42649] (.node (.node (.node .leaf 42650 [42651] .leaf) 42786
    [42787] .leaf) 42788 [42789] (.node .leaf 42790 [42791] .leaf))) 42792 [42793] (.node (.node
    (.node (.node .leaf 42794 [42795] .leaf) 42796 [42797] .leaf) 42798 [42799] (.node (.node
    .leaf 42802 [42803] .leaf) 42804 [42805] .leaf)) 42806 [42807] (.node (.node (.node .leaf
    42808 [42809] .leaf) 42810 [42811] .leaf) 42812 [42813] (.node .leaf 42814 [42815]
    .leaf)))))))) 42816 [42817] (.node (.node (.node (.node (.node (.node (.node (.node (.node
    .leaf 42818 [42819] .leaf) 42820 [42821] .leaf) 42822 [42823] (.node (.node .leaf 42824
    [42825] .leaf) 42826 [42827] .leaf)) 42828 [42829] (.node (.node (.node .leaf 42830 [42831]
    .leaf) 42832 [42833] .leaf) 42834 [42835] (.node (.node .leaf 42836 [42837] .leaf) 42838
    [42839] .leaf))) 42840 [42841] (.node (.node (.node (.node .leaf 42842 [42843] .leaf) 42844
    [42845] .leaf) 42846 [42847] (.node (.node .leaf 42848 [42849] .leaf) 42850 [42851] .leaf))
    42852 [42853] (.node (.node (.node .leaf 42854 [42855] .leaf) 42856 [42857] .leaf) 42858
    [42859] (.node .leaf 42860 [42861] .leaf)))) 42862 [42863] (.node (.node (.node (.node (.node
    .leaf 42873 [42874] .leaf) 42875 [42876] .leaf) 42877 [7545] (.node (.node .leaf 42878
    [42879] .leaf) 42880 [42881] .leaf)) 42882 [42883] (.node (.node (.node .leaf 42884 [42885]
    .leaf) 42886 [42887] .leaf) 42891 [42892] (.node .leaf 42893 [613] .leaf))) 42896 [42897]
    (.node (.node (.node (.node .leaf 42898 [42899] .leaf) 42902 [42903] .leaf) 42904 [42905]
    (.node (.node .leaf 42906 [42907] .leaf) 42908 [42909] .leaf)) 42910 [42911] (.node (.node
    (.node .leaf 42912 [42913] .leaf) 42914 [42915] .leaf) 42916 [42917] (.node .leaf 42918
    [42919] .leaf))))) 42920 [42921] (.node (.node (.node (.node (.node (.node .leaf 42922 [614]
    .leaf) 42923 [604] .leaf) 42924 [609] (.node (.node .leaf 42925 [620] .leaf) 42926 [618]
    .leaf)) 42928 [670] (.node (.node (.node .leaf 42929 [647] .leaf) 42930 [669] .leaf) 42931
    [43859] (.node (.node .leaf 42932 [42933] .leaf) 42934 [42935] .leaf))) 42936 [42937] (.node
    (.node (.node (.node .leaf 42938 [42939] .leaf) 42940 [42941] .leaf) 42942 [42943] (.node
    (.node .leaf 42944 [42945] .leaf) 42946 [42947] .leaf)) 42948 [42900] (.node (.node (.node
    .leaf 42949 [642] .leaf) 42950 [7566] .leaf) 42951 [42952] (.node .leaf 42953 [42954]
    .leaf)))) 42960 [42961] (.node (.node (.node (.node (.node .leaf 42966 [42967] .leaf) 42968
    [42969] .leaf) 42997 [42998] (.node (.node .leaf 65313 [65345] .leaf) 65314 [65346] .leaf))
    65315 [65347] (.node (.node (.node .leaf 65316 [65348] .leaf) 65317 [65349] .leaf) 65318
    [65350] (.node .leaf 65319 [65351] .leaf))) 65320 [65352] (.node (.node (.node (.node .leaf
    65321 [65353] .leaf) 65322 [65354] .leaf) 65323 [65355] (.node (.node .leaf 65324 [65356]
    .leaf) 65325 [65357] .leaf)) 65326 [65358] (.node (.node (.node .leaf 65327 [65359] .leaf)
    65328 [65360] .leaf) 65329 [65361] (.node .leaf 65330 [65362] .leaf)))))) 65331 [65363]
    (.node (.node (.node (.node (.node (.node (.node .leaf 65332 [65364] .leaf) 65333 [65365]
    .leaf) 65334 [65366] (.node (.node .leaf 65335 [65367] .leaf) 65336 [65368] .leaf)) 65337
    [65369] (.node (.node (.node .leaf 65338 [65370] .leaf) 66560 [66600] .leaf) 66561 [66601]
    (.node (.node .leaf 66562 [66602] .leaf) 66563 [66603] .leaf))) 66564 [66604] (.node (.node
    (.node (.node .leaf 66565 [66605] .leaf) 66566 [66606] .leaf) 66567 [66607] (.node (.node
    .leaf 66568 [66608] .leaf) 66569 [66609] .leaf)) 66570 [66610] (.node (.node (.node .leaf
    66571 [66611] .leaf) 66572 [66612] .leaf) 66573 [66613] (.node .leaf 66574 [66614] .leaf))))
    66575 [66615] (.node (.node (.node (.node (.node .leaf 66576 [66616] .leaf) 66577 [66617]
    .leaf) 66578 [66618] (.node (.node .leaf 66579 [66619] .leaf) 66580 [66620] .leaf)) 66581
    [66621] (.node (.node (.node .leaf 66582 [66622] .leaf) 66583 [66623] .leaf) 66584 [66624]
    (.node .leaf 66585 [66625] .leaf))) 66586 [66626] (.node (.node (.node (.node .leaf 66587
    [66627] .leaf) 66588 [66628] .leaf) 66589 [66629] (.node (.node .leaf 66590 [66630] .leaf)
    66591 [66631] .leaf)) 66592 [66632] (.node (.node (.node .leaf 66593 [66633] .leaf) 66594
    [66634] .leaf) 66595 [66635] (.node .leaf 66596 [66636] .leaf))))) 66597 [66637] (.node
    (.node (.node (.node (.node (.node .leaf 66598 [66638] .leaf) 66599 [66639] .leaf) 66736
    [66776] (.node (.node .leaf 66737 [66777] .leaf) 66738 [66778] .leaf)) 66739 [66779] (.node
    (.node (.node .leaf 66740 [66780] .leaf) 66741 [66781] .leaf) 66742 [66782] (.node .leaf
    66743 [66783] .leaf))) 66744 [66784] (.node (.node (.node (.node .leaf 66745 [66785] .leaf)
    66746 [66786] .leaf) 66747 [66787] (.node (.node .leaf 66748 [66788] .leaf) 66749 [66789]
    .leaf)) 66750 [66790] (.node (.node (.node .leaf 66751 [66791] .leaf) 66752 [66792] .leaf)
    66753 [66793] (.node .leaf 66754 [66794] .leaf)))) 66755 [66795] (.node (.node (.node (.node
    (.node .leaf 66756 [66796] .leaf) 66757 [66797] .leaf) 66758 [66798] (.node (.node .leaf
    66759 [66799] .leaf) 66760 [66800] .leaf)) 66761 [66801] (.node (.node (.node .leaf 66762
    [66802] .leaf) 66763 [66803] .leaf) 66764 [66804] (.node .leaf 66765 [66805] .leaf))) 66766
    [66806] (.node (.node (.node (.node .leaf 66767 [66807] .leaf) 66768 [66808] .leaf) 66769
    [66809] (.node (.node .leaf 66770 [66810] .leaf) 66771 [66811] .leaf)) 66928 [66967] (.node
    (.node (.node .leaf 66929 [66968] .leaf) 66930 [66969] .leaf) 66931 [66970] (.node .leaf
    66932 [66971] .leaf))))))) 66933 [66972] (.node (.node (.node (.node (.node (.node (.node
    (.node .leaf 66934 [66973] .leaf) 66935 [66974] .leaf) 66936 [66975] (.node (.node .leaf
    66937 [66976] .leaf) 66938 [66977] .leaf)) 66940 [66979] (.node (.node (.node .leaf 66941
    [66980] .leaf) 66942 [66981] .leaf) 66943 [66982] (.node (.node .leaf 66944 [66983] .leaf)
    66945 [66984] .leaf))) 66946 [66985] (.node (.node (.node (.node .leaf 66947 [66986] .leaf)
    66948 [66987] .leaf) 66949 [66988] (.node (.node .leaf 66950 [66989] .leaf) 66951 [66990]
    .leaf)) 66952 [66991] (.node (.node (.node .leaf 66953 [66992] .leaf) 66954 [66993] .leaf)
    66956 [66995] (.node .leaf 66957 [66996] .leaf)))) 66958 [66997] (.node (.node (.node (.node
    (.node .leaf 66959 [66998] .leaf) 66960 [66999] .leaf) 66961 [67000] (.node (.node .leaf
    66962 [67001] .leaf) 66964 [67003] .leaf)) 66965 [67004] (.node (.node (.node .leaf 68736
    [68800] .leaf) 68737 [68801] .leaf) 68738 [68802] (.node .leaf 68739 [68803] .leaf))) 68740
    [68804] (.node (.node (.node (.node .leaf 68741 [68805] .leaf) 68742 [68806] .leaf) 68743
    [68807] (.node (.node .leaf 68744 [68808] .leaf) 68745 [68809] .leaf)) 68746 [68810] (.node
    (.node (.node .leaf 68747 [68811] .leaf) 68748 [68812] .leaf) 68749 [68813] (.node .leaf
    68750 [68814] .leaf))))) 68751 [68815] (.node (.node (.node (.node (.node (.node .leaf 68752
    [68816] .leaf) 68753 [68817] .leaf) 68754 [68818] (.node (.node .leaf 68755 [68819] .leaf)
    68756 [68820] .leaf)) 68757 [68821] (.node (.node (.node .leaf 68758 [68822] .leaf) 68759
    [68823] .leaf) 68760 [68824] (.node (.node .leaf 68761 [68825] .leaf) 68762 [68826] .leaf)))
    68763 [68827] (.node (.node (.node (.node .leaf 68764 [68828] .leaf) 68765 [68829] .leaf)
    68766 [68830] (.node (.node .leaf 68767 [68831] .leaf) 68768 [68832] .leaf)) 68769 [68833]
    (.node (.node (.node .leaf 68770 [68834] .leaf) 68771 [68835] .leaf) 68772 [68836] (.node
    .leaf 68773 [68837] .leaf)))) 68774 [68838] (.node (.node (.node (.node (.node .leaf 68775
    [68839] .leaf) 68776 [68840] .leaf) 68777 [68841] (.node (.node .leaf 68778 [68842] .leaf)
    68779 [68843] .leaf)) 68780 [68844] (.node (.node (.node .leaf 68781 [68845] .leaf) 68782
    [68846] .leaf) 68783 [68847] (.node .leaf 68784 [68848] .leaf))) 68785 [68849] (.node (.node
    (.node (.node .leaf 68786 [68850] .leaf) 71840 [71872] .leaf) 71841 [71873] (.node (.node
    .leaf 71842 [71874] .leaf) 71843 [71875] .leaf)) 71844 [71876] (.node (.node (.node .leaf
    71845 [71877] .leaf) 71846 [71878] .leaf) 71847 [71879] (.node .leaf 71848 [71880]
    .leaf)))))) 71849 [71881] (.node (.node (.node (.node (.node (.node (.node .leaf 71850
    [71882] .leaf) 71851 [71883] .leaf) 71852 [71884] (.node (.node .leaf 71853 [71885] .leaf)
    71854 [71886] .leaf)) 71855 [71887] (.node (.node (.node .leaf 71856 [71888] .leaf) 71857
    [71889] .leaf) 71858 [71890] (.node (.node .leaf 71859 [71891] .leaf) 71860 [71892] .leaf)))
    71861 [71893] (.node (.node (.node (.node .leaf 71862 [71894] .leaf) 71863 [71895] .leaf)
    71864 [71896] (.node (.node .leaf 71865 [71897] .leaf) 71866 [71898] .leaf)) 71867 [71899]
    (.node (.node (.node .leaf 71868 [71900] .leaf) 71869 [71901] .leaf) 71870 [71902] (.node
    .leaf 71871 [71903] .leaf)))) 93760 [93792] (.node (.node (.node (.node (.node .leaf 93761
    [93793] .leaf) 93762 [93794] .leaf) 93763 [93795] (.node (.node .leaf 93764 [93796] .leaf)
    93765 [93797] .leaf)) 93766 [93798] (.node (.node (.node .leaf 93767 [93799] .leaf) 93768
    [93800] .leaf) 93769 [93801] (.node .leaf 93770 [93802] .leaf))) 93771 [93803] (.node (.node
    (.node (.node .leaf 93772 [93804] .leaf) 93773 [93805] .leaf) 93774 [93806] (.node (.node
    .leaf 93775 [93807] .leaf) 93776 [93808] .leaf)) 93777 [93809] (.node (.node (.node .leaf
    93778 [93810] .leaf) 93779 [93811] .leaf) 93780 [93812] (.node .leaf 93781 [93813] .leaf)))))
    93782 [93814] (.node (.node (.node (.node (.node (.node .leaf 93783 [93815] .leaf) 93784
    [93816] .leaf) 93785 [93817] (.node (.node .leaf 93786 [93818] .leaf) 93787 [93819] .leaf))
    93788 [93820] (.node (.node (.node .leaf 93789 [93821] .leaf) 93790 [93822] .leaf) 93791
    [93823] (.node .leaf 125184 [125218] .leaf))) 125185 [125219] (.node (.node (.node (.node
    .leaf 125186 [125220] .leaf) 125187 [125221] .leaf) 125188 [125222] (.node (.node .leaf
    125189 [125223] .leaf) 125190 [125224] .leaf)) 125191 [125225] (.node (.node (.node .leaf
    125192 [125226] .leaf) 125193 [125227] .leaf) 125194 [125228] (.node .leaf 125195 [125229]
    .leaf)))) 125196 [125230] (.node (.node (.node (.node (.node .leaf 125197 [125231] .leaf)
    125198 [125232] .leaf) 125199 [125233] (.node (.node .leaf 125200 [125234] .leaf) 125201
    [125235] .leaf)) 125202 [125236] (.node (.node (.node .leaf 125203 [125237] .leaf) 125204
    [125238] .leaf) 125205 [125239] (.node .leaf 125206 [125240] .leaf))) 125207 [125241] (.node
    (.node (.node (.node .leaf 125208 [125242] .leaf) 125209 [125243] .leaf) 125210 [125244]
    (.node (.node .leaf 125211 [125245] .leaf) 125212 [125246] .leaf)) 125213 [125247] (.node
    (.node (.node .leaf 125214 [125248] .leaf) 125215 [125249] .leaf) 125216 [125250] (.node
    .leaf 125217 [125251] .leaf)))))))))

/-- Rust: `c.to_lowercase()` for a single character — the table expansion,
or the character itself when it has no lowercase mapping. -/
def lowerCharFull (c : Char) : List Char :=
  match lowerTree.find c.toNat with
  | some v => v.map Char.ofNat
  | none => [c]

/-- Check, over the tree, that every expansion code point is a valid scalar
value with no lowercase mapping of its own and is not capital sigma;
evaluation recursion depth is the tree height. -/
def treeOutputsFixed : LTree → Bool
  | .leaf => true
  | .node l _ v r =>
    (v.all fun k =>
      decide (Nat.isValidChar k) && (lowerTree.find k).isNone && k != 931)
      && treeOutputsFixed l && treeOutputsFixed r

/-- The Unicode `Cased` property (D135: Lowercase, Uppercase or titlecase),
as inclusive code-point ranges. Used by the Final_Sigma rule. -/
def casedRanges : List (Nat × Nat) := [
  (65, 90), (97, 122), (170, 170), (181, 181), (186, 186), (192, 214), (216, 246),
  (248, 442), (444, 447), (452, 659), (661, 696), (704, 705), (736, 740), (837, 837),
  (880, 883), (886, 887), (890, 893), (895, 895), (902, 902), (904, 906), (908, 908),
  (910, 929), (931, 1013), (1015, 1153), (1162, 1327), (1329, 1366), (1376, 1416), (4256, 4293),
  (4295, 4295), (4301, 4301), (4304, 4346), (4349, 4351), (5024, 5109), (5112, 5117), (7296, 7304),
  (7312, 7354), (7357, 7359), (7424, 7615), (7680, 7957), (7960, 7965), (7968, 8005), (8008, 8013),
  (8016, 8023), (8025, 8025), (8027, 8027), (8029, 8029), (8031, 8061), (8064, 8116), (8118, 8124),
  (8126, 8126), (8130, 8132), (8134, 8140), (8144, 8147), (8150, 8155), (8160, 8172), (8178, 8180),
  (8182, 8188), (8305, 8305), (8319, 8319), (8336, 8348), (8450, 8450), (8455, 8455), (8458, 8467),
  (8469, 8469), (8473, 8477), (8484, 8484), (8486, 8486), (8488, 8488), (8490, 8493), (8495, 8500),
  (8505, 8505), (8508, 8511), (8517, 8521), (8526, 8526), (8544, 8575), (8579, 8580), (9398, 9449),
  (11264, 11492), (11499, 11502), (11506, 11507), (11520, 11557), (11559, 11559), (11565, 11565), (42560, 42605),
  (42624, 42653), (42786, 42887), (42891, 42894), (42896, 42954), (42960, 42961), (42963, 42963), (42965, 42969),
  (42997, 42998), (43000, 43002), (43824, 43866), (43868, 43880), (43888, 43967), (64256, 64262), (64275, 64279),
  (65313, 65338), (65345, 65370), (66560, 66639), (66736, 66771), (66776, 66811), (66928, 66938), (66940, 66954),
  (66956, 66962), (66964, 66965), (66967, 66977), (66979, 66993), (66995, 67001), (67003, 67004), (67456, 67456),
  (67459, 67461), (67463, 67504), (67506, 67514), (68736, 68786), (68800, 68850), (71840, 71903), (93760, 93823),
  (119808, 119892), (119894, 119964), (119966, 119967), (119970, 119970), (119973, 119974), (119977, 119980), (119982, 119993),
  (119995, 119995), (119997, 120003), (120005, 120069), (120071, 120074), (120077, 120084), (120086, 120092), (120094, 120121),
  (120123, 120126), (120128, 120132), (120134, 120134), (120138, 120144), (120146, 120485), (120488, 120512), (120514, 120538),
  (120540, 120570), (120572, 120596), (120598, 120628), (120630, 120654), (120656, 120686), (120688, 120712), (120714, 120744),
  (120746, 120770), (120772, 120779), (122624, 122633), (122635, 122654), (125184, 125251), (127280, 127305), (127312, 127337),
  (127344, 127369)]

/-- The Unicode `Case_Ignorable` property (D136: general categories Mn, Me,
Cf, Lm, Sk plus the word-break MidLetter/MidNumLet/Single_Quote characters),
as inclusive code-point ranges. Used by the Final_Sigma rule. -/
def caseIgnorableRanges : List (Nat × Nat) := [
  (39, 39), (46, 46), (58, 58), (94, 94), (96, 96), (168, 168), (173, 173),
  (175, 175), (180, 180), (183, 184), (688, 879), (884, 885), (890, 890), (900, 901),
  (903, 903), (1155, 1161), (1369, 1369), (1375, 1375), (1425, 1469), (1471, 1471), (1473, 1474),
  (1476, 1477), (1479, 1479), (1524, 1524), (1536, 1541), (1552, 1562), (1564, 1564), (1600, 1600),
  (1611, 1631), (1648, 1648), (1750, 1757), (1759, 1768), (1770, 1773), (1807, 1807), (1809, 1809),
  (1840, 1866), (1958, 1968), (2027, 2037), (2042, 2042), (2045, 2045), (2070, 2093), (2137, 2139),
  (2184, 2184), (2192, 2193), (2200, 2207), (2249, 2306), (2362, 2362), (2364, 2364), (2369, 2376),
  (2381, 2381), (2385, 2391), (2402, 2403), (2417, 2417), (2433, 2433), (2492, 2492), (2497, 2500),
  (2509, 2509), (2530, 2531), (2558, 2558), (2561, 2562), (2620, 2620), (2625, 2626), (2631, 2632),
  (2635, 2637), (2641, 2641), (2672, 2673), (2677, 2677), (2689, 2690), (2748, 2748), (2753, 2757),
  (2759, 2760), (2765, 2765), (2786, 2787), (2810, 2815), (2817, 2817), (2876, 2876), (2879, 2879),
  (2881, 2884), (2893, 2893), (2901, 2902), (2914, 2915), (2946, 2946), (3008, 3008), (3021, 3021),
  (3072, 3072), (3076, 3076), (3132, 3132), (3134, 3136), (3142, 3144), (3146, 3149), (3157, 3158),
  (3170, 3171), (3201, 3201), (3260, 3260), (3263, 3263), (3270, 3270), (3276, 3277), (3298, 3299),
  (3328, 3329), (3387, 3388), (3393, 3396), (3405, 3405), (3426, 3427), (3457, 3457), (3530, 3530),
  (3538, 3540), (3542, 3542), (3633, 3633), (3636, 3642), (3654, 3662), (3761, 3761), (3764, 3772),
  (3782, 3782), (3784, 3789), (3864, 3865), (3893, 3893), (3895, 3895), (3897, 3897), (3953, 3966),
  (3968, 3972), (3974, 3975), (3981, 3991), (3993, 4028), (4038, 4038), (4141, 4144), (4146, 4151),
  (4153, 4154), (4157, 4158), (4184, 4185), (4190, 4192), (4209, 4212), (4226, 4226), (4229, 4230),
  (4237, 4237), (4253, 4253), (4348, 4348), (4957, 4959), (5906, 5908), (5938, 5939), (5970, 5971),
  (6002, 6003), (6068, 6069), (6071, 6077), (6086, 6086), (6089, 6099), (6103, 6103), (6109, 6109),
  (6155, 6159), (6211, 6211), (6277, 6278), (6313, 6313), (6432, 6434), (6439, 6440), (6450, 6450),
  (6457, 6459), (6679, 6680), (6683, 6683), (6742, 6742), (6744, 6750), (6752, 6752), (6754, 6754),
  (6757, 6764), (6771, 6780), (6783, 6783), (6823, 6823), (6832, 6862), (6912, 6915), (6964, 6964),
  (6966, 6970), (6972, 6972), (6978, 6978), (7019, 7027), (7040, 7041), (7074, 7077), (7080, 7081),
  (7083, 7085), (7142, 7142), (7144, 7145), (7149, 7149), (7151, 7153), (7212, 7219), (7222, 7223),
  (7288, 7293), (7376, 7378), (7380, 7392), (7394, 7400), (7405, 7405), (7412, 7412), (7416, 7417),
  (7468, 7530), (7544, 7544), (7579, 7679), (8125, 8125), (8127, 8129), (8141, 8143), (8157, 8159),
  (8173, 8175), (8189, 8190), (8203, 8207), (8216, 8217), (8228, 8228), (8231, 8231), (8234, 8238),
  (8288, 8292), (8294, 8303), (8305, 8305), (8319, 8319), (8336, 8348), (8400, 8432), (11388, 11389),
  (11503, 11505), (11631, 11631), (11647, 11647), (11744, 11775), (11823, 11823), (12293, 12293), (12330, 12333),
  (12337, 12341), (12347, 12347), (12441, 12446), (12540, 12542), (40981, 40981), (42232, 42237), (42508, 42508),
  (42607, 42610), (42612, 42621), (42623, 42623), (42652, 42655), (42736, 42737), (42752, 42785), (42864, 42864),
  (42888, 42890), (42994, 42996), (43000, 43001), (43010, 43010), (43014, 43014), (43019, 43019), (43045, 43046),
  (43052, 43052), (43204, 43205), (43232, 43249), (43263, 43263), (43302, 43309), (43335, 43345), (43392, 43394),
  (43443, 43443), (43446, 43449), (43452, 43453), (43471, 43471), (43493, 43494), (43561, 43566), (43569, 43570),
  (43573, 43574), (43587, 43587), (43596, 43596), (43632, 43632), (43644, 43644), (43696, 43696), (43698, 43700),
  (43703, 43704), (43710, 43711), (43713, 43713), (43741, 43741), (43756, 43757), (43763, 43764), (43766, 43766),
  (43867, 43871), (43881, 43883), (44005, 44005), (44008, 44008), (44013, 44013), (64286, 64286), (64434, 64450),
  (65024, 65039), (65043, 65043), (65056, 65071), (65106, 65106), (65109, 65109), (65279, 65279), (65287, 65287),
  (65294, 65294), (65306, 65306), (65342, 65342), (65344, 65344), (65392, 65392), (65438, 65439), (65507, 65507),
  (65529, 65531), (66045, 66045), (66272, 66272), (66422, 66426), (67456, 67461), (67463, 67504), (67506, 67514),
  (68097, 68099), (68101, 68102), (68108, 68111), (68152, 68154), (68159, 68159), (68325, 68326), (68900, 68903),
  (69291, 69292), (69446, 69456), (69506, 69509), (69633, 69633), (69688, 69702), (69744, 69744), (69747, 69748),
  (69759, 69761), (69811, 69814), (69817, 69818), (69821, 69821), (69826, 69826), (69837, 69837), (69888, 69890),
  (69927, 69931), (69933, 69940), (70003, 70003), (70016, 70017), (70070, 70078), (70089, 70092), (70095, 70095),
  (70191, 70193), (70196, 70196), (70198, 70199), (70206, 70206), (70367, 70367), (70371, 70378), (70400, 70401),
  (70459, 70460), (70464, 70464), (70502, 70508), (70512, 70516), (70712, 70719), (70722, 70724), (70726, 70726),
  (70750, 70750), (70835, 70840), (70842, 70842), (70847, 70848), (70850, 70851), (71090, 71093), (71100, 71101),
  (71103, 71104), (71132, 71133), (71219, 71226), (71229, 71229), (71231, 71232), (71339, 71339), (71341, 71341),
  (71344, 71349), (71351, 71351), (71453, 71455), (71458, 71461), (71463, 71467), (71727, 71735), (71737, 71738),
  (71995, 71996), (71998, 71998), (72003, 72003), (72148, 72151), (72154, 72155), (72160, 72160), (72193, 72202),
  (72243, 72248), (72251, 72254), (72263, 72263), (72273, 72278), (72281, 72283), (72330, 72342), (72344, 72345),
  (72752, 72758), (72760, 72765), (72767, 72767), (72850, 72871), (72874, 72880), (72882, 72883), (72885, 72886),
  (73009, 73014), (73018, 73018), (73020, 73021), (73023, 73029), (73031, 73031), (73104, 73105), (73109, 73109),
  (73111, 73111), (73459, 73460), (78896, 78904), (92912, 92916), (92976, 92982), (92992, 92995), (94031, 94031),
  (94095, 94111), (94176, 94177), (94179, 94180), (110576, 110579), (110581, 110587), (110589, 110590), (113821, 113822),
  (113824, 113827), (118528, 118573), (118576, 118598), (119143, 119145), (119155, 119170), (119173, 119179), (119210, 119213),
  (119362, 119364), (121344, 121398), (121403, 121452), (121461, 121461), (121476, 121476), (121499, 121503), (121505, 121519),
  (122880, 122886), (122888, 122904), (122907, 122913), (122915, 122916), (122918, 122922), (123184, 123197), (123566, 123566),
  (123628, 123631), (125136, 125142), (125252, 125259), (127995, 127999), (917505, 917505), (917536, 917631), (917760, 917999)]

def isCased (c : Char) : Bool :=
  casedRanges.any fun p => p.1 ≤ c.toNat && c.toNat ≤ p.2

def isCaseIgnorable (c : Char) : Bool :=
  caseIgnorableRanges.any fun p => p.1 ≤ c.toNat && c.toNat ≤ p.2

/-- Rust: `case_ignoreable_then_cased` in `str::to_lowercase` — skip
case-ignorable characters, then test whether the first remaining character
is cased. -/
def caseIgnorableThenCased (l : List Char) : Bool :=
  match l.dropWhile isCaseIgnorable with
  | [] => false
  | c :: _ => isCased c

/-- Rust: the character loop of `str::to_lowercase`. `revBefore` is the
reversed list of characters already consumed (the original prefix, which
Rust re-reads as `from[..i].chars().rev()`), `rest` the characters still to
process. Capital sigma (931) becomes final sigma (962) exactly when it is
word-final per the Final_Sigma rule — a cased character (possibly after
case-ignorable ones) before it and none after it — and small sigma (963)
otherwise; every other character takes its unconditional table expansion. -/
def toLowerCore (revBefore : List Char) : List Char → List Char
  | [] => []
  | c :: rest =>
    (if c.toNat = 931 then
      if caseIgnorableThenCased revBefore && !caseIgnorableThenCased rest
      then [Char.ofNat 962] else [Char.ofNat 963]
    else lowerCharFull c) ++ toLowerCore (c :: revBefore) rest

/-- Rust: `name.to_lowercase()` in `sanitize` — full Unicode lowercasing
(per-character unconditional mappings plus the Final_Sigma rule), modelled
on the string's character list. -/
def toLowercase (s : String) : String :=
  ⟨toLowerCore [] s.data⟩

/-- Rust: `fn sanitize(name: &str) -> String` from `main.rs`, with the
`let name = name.to_lowercase()` binding inlined into each use. -/
def sanitize (name : String) : String :=
  if toLowercase name = "p" ∨ toLowercase name = "potion" then "potion"
  else if toLowercase name = "e" ∨ toLowercase name = "escape" then "escape"
  else if toLowercase name = "sw" ∨ toLowercase name = "sword" then "sword"
  else if toLowercase name = "sh" ∨ toLowercase name = "shield" then "shield"
  else toLowercase name

/-- The alias/canonical names recognized by `sanitize`'s match arms. -/
def sanitizeAliases : List String :=
  ["p", "potion", "e", "escape", "sw", "sword", "sh", "shield"]

/-- C1: for every Stat and level ≥ 0, `at(level) = base + level * increase`,
and `at` is monotonically non-decreasing in the level whenever the increase
is non-negative. -/
theorem stat_at_linear_monotone (s : Stat) (level : Int) (hlevel : 0 ≤ level) :
    s.atLevel level = s.base + level * s.increase ∧
      ∀ l1 l2 : Int, 0 ≤ s.increase → l1 ≤ l2 → s.atLevel l1 ≤ s.atLevel l2 := by
  refine ⟨rfl, fun l1 l2 hinc hle => ?_⟩
  unfold Stat.atLevel
  have h := mul_le_mul_of_nonneg_right hle hinc
  omega

/-- C1 witness: the theorem instantiated at the hero hp stat and level 1,
also exercising monotonicity between levels 1 and 2. -/
theorem stat_at_linear_monotone_witness :
    (0 : Int) ≤ 1 ∧ (Stat.mk 30 7).atLevel 1 = 30 + 1 * 7 ∧
      (Stat.mk 30 7).atLevel 1 ≤ (Stat.mk 30 7).atLevel 2 :=
  ⟨by decide, (stat_at_linear_monotone ⟨30, 7⟩ 1 (by decide)).1,
    (stat_at_linear_monotone ⟨30, 7⟩ 1 (by decide)).2 1 2 (by decide) (by decide)⟩

theorem totalWeight_nil : totalWeight [] = 0 := rfl

theorem totalWeight_cons (c : Class) (w : Int) (l : List (Class × Int)) :
    totalWeight ((c, w) :: l) = w + totalWeight l := by
  simp [totalWeight]

/-- A draw value inside `[0, total)` always selects an entry. -/
theorem pick_isSome :
    ∀ (l : List (Class × Int)) (r : Int), 0 ≤ r → r < totalWeight l →
      (pick l r).isSome = true := by
  intro l
  induction l with
  | nil =>
    intro r h0 hr
    rw [totalWeight_nil] at hr
    omega
  | cons p rest ih =>
    intro r h0 hr
    obtain ⟨c, w⟩ := p
    rw [totalWeight_cons] at hr
    unfold pick
    by_cases h : r < w
    · rw [if_pos h]
      rfl
    · rw [if_neg h]
      exact ih (r - w) (by omega) (by omega)

/-- A selected entry is a member of the list with strictly positive weight
(given a non-negative draw value). -/
theorem pick_mem :
    ∀ (l : List (Class × Int)) (r : Int) (c : Class), 0 ≤ r →
      pick l r = some c → ∃ w, (c, w) ∈ l ∧ 0 < w := by
  intro l
  induction l with
  | nil =>
    intro r c _ hc
    exact absurd hc (by simp [pick])
  | cons p rest ih =>
    intro r c h0 hc
    obtain ⟨c', w⟩ := p
    unfold pick at hc
    by_cases h : r < w
    · rw [if_pos h] at hc
      cases hc
      exact ⟨w, List.mem_cons_self _ _, by omega⟩
    · rw [if_neg h] at hc
      obtain ⟨w', hmem, hw'⟩ := ih (r - w) c (by omega) hc
      exact ⟨w', List.mem_cons_of_mem _ hmem, hw'⟩

/-- Every entry of the flattened candidate list is a tier member carrying
its tier's weight. -/
theorem mem_candidates (d : Distance) (c : Class) (w : Int)
    (h : (c, w) ∈ candidates d) :
    (c ∈ COMMON ∧ w = (tierWeights d).1) ∨
      (c ∈ RARE ∧ w = (tierWeights d).2.1) ∨
      (c ∈ LEGENDARY ∧ w = (tierWeights d).2.2) := by
  unfold candidates at h
  simp only [List.mem_append, List.mem_map] at h
  rcases h with (⟨x, hx, hxy⟩ | ⟨x, hx, hxy⟩) | ⟨x, hx, hxy⟩ <;>
    obtain ⟨rfl, rfl⟩ := Prod.mk.injEq .. ▸ hxy <;>
    [exact Or.inl ⟨hx, rfl⟩; exact Or.inr (Or.inl ⟨hx, rfl⟩);
      exact Or.inr (Or.inr ⟨hx, rfl⟩)]

/-- Each tier member appears in the candidate list with its tier weight. -/
theorem tier_mem_candidates (d : Distance) :
    (∀ c ∈ COMMON, (c, (tierWeights d).1) ∈ candidates d) ∧
      (∀ c ∈ RARE, (c, (tierWeights d).2.1) ∈ candidates d) ∧
      (∀ c ∈ LEGENDARY, (c, (tierWeights d).2.2) ∈ candidates d) := by
  refine ⟨fun c hc => ?_, fun c hc => ?_, fun c hc => ?_⟩ <;>
    unfold candidates <;>
    simp only [List.mem_append, List.mem_map]
  · exact Or.inl (Or.inl ⟨c, hc, rfl⟩)
  · exact Or.inl (Or.inr ⟨c, hc, rfl⟩)
  · exact Or.inr ⟨c, hc, rfl⟩

theorem common_disjoint : ∀ c ∈ COMMON, c ∉ RARE ∧ c ∉ LEGENDARY := by decide

theorem rare_disjoint : ∀ c ∈ RARE, c ∉ COMMON ∧ c ∉ LEGENDARY := by decide

theorem legendary_disjoint : ∀ c ∈ LEGENDARY, c ∉ COMMON ∧ c ∉ RARE := by
  decide

theorem hero_not_tiered :
    Class.HERO ∉ COMMON ∧ Class.HERO ∉ RARE ∧ Class.HERO ∉ LEGENDARY := by
  decide

/-- The candidate list ignores the distance magnitude. -/
theorem candidates_canon (n : Nat) :
    candidates (.Near n) = candidates (.Near 0) ∧
      candidates (.Mid n) = candidates (.Mid 0) ∧
      candidates (.Far n) = candidates (.Far 0) :=
  ⟨rfl, rfl, rfl⟩

/-- A successful draw comes from the candidate list with positive weight. -/
theorem random_enemy_mem (d : Distance) (r : Int) (c : Class) (h0 : 0 ≤ r)
    (hc : random_enemy d r = some c) :
    ∃ w, (c, w) ∈ candidates d ∧ 0 < w := by
  unfold random_enemy choose_weighted at hc
  split at hc
  · exact absurd hc (by simp)
  · exact pick_mem _ r c h0 hc

/-- C5 counterexample: at tag `Mid` the probability of drawing a RARE-tier
class is NOT the per-class weight quotient 10/18: the tiers have sizes
5/7/5, so the RARE mass is 7·10 = 70 out of a total 5·7 + 7·10 + 5·1 = 110. -/
theorem rare_at_mid_not_ten_eighteenths :
    tierProb (.Mid 0) RARE ≠ 10 / 18 := by
  have h1 : tierMass (candidates (.Mid 0)) RARE = 70 := by decide
  have h2 : totalWeight (candidates (.Mid 0)) = 110 := by decide
  rw [tierProb, h1, h2]
  norm_num

/-- C5 amended: at any distance with tag `Mid`, the probability that the
drawn class is RARE-tier equals (7·10)/(5·7 + 7·10 + 5·1) = 70/110 = 7/11
(the tier weight multiplies each of the 7 RARE classes, against 5 COMMON
classes of weight 7 and 5 LEGENDARY classes of weight 1). -/
theorem rare_at_mid_prob_seven_elevenths (n : Nat) :
    tierProb (.Mid n) RARE = 70 / 110 ∧ tierProb (.Mid n) RARE = 7 / 11 := by
  have h1 : tierMass (candidates (.Mid n)) RARE = 70 := rfl
  have h2 : totalWeight (candidates (.Mid n)) = 110 := rfl
  rw [tierProb, h1, h2]
  norm_num

/-- C7 counterexample: the rat's speed growth rate (2) is not strictly below
the hero's speed growth rate (2), refuting the claim that every per-level
growth rate of every tiered enemy stays strictly below the hero's. -/
theorem enemy_speed_growth_not_strictly_below :
    RAT ∈ COMMON ∧ ¬ RAT.speed.increase < Class.HERO.speed.increase := by
  decide

/-- C7 amended: every tiered enemy's hp and strength growth rates are
strictly below the hero's (7 and 3), and every tiered enemy's speed growth
rate is at most the hero's (2; most enemies match it exactly, golem is
below). -/
theorem enemy_growth_rates_bounded :
    ∀ c ∈ COMMON ++ RARE ++ LEGENDARY,
      c.hp.increase < Class.HERO.hp.increase ∧
        c.strength.increase < Class.HERO.strength.increase ∧
        c.speed.increase ≤ Class.HERO.speed.increase := by
  decide

/-- C7 amended witness: the bound instantiated at the rat. -/
theorem enemy_growth_rates_bounded_witness :
    RAT.hp.increase < Class.HERO.hp.increase ∧
      RAT.strength.increase < Class.HERO.strength.increase ∧
      RAT.speed.increase ≤ Class.HERO.speed.increase :=
  enemy_growth_rates_bounded RAT (by decide)

/-- C8 counterexample: under `max_hp = class.hp.at(level)`, a level-1 hero
has 37 max hp and a level-1 rat has 13, not the 30 and 10 of the spec's
end-to-end scenario. -/
theorem scenario_level_one_hp_mismatch :
    Class.HERO.hp.atLevel 1 = 37 ∧ RAT.hp.atLevel 1 = 13 ∧
      Class.HERO.hp.atLevel 1 ≠ 30 ∧ RAT.hp.atLevel 1 ≠ 10 := by
  decide

/-- C8 amended: the scenario's 30 and 10 are the base hp values, i.e. the
value of the max-hp formula at level 0; at level 1 the formula yields 37 for
the hero and 13 for the rat. -/
theorem scenario_hp_base_values :
    Class.HERO.hp.atLevel 0 = 30 ∧ RAT.hp.atLevel 0 = 10 ∧
      Class.HERO.hp.atLevel 1 = 37 ∧ RAT.hp.atLevel 1 = 13 := by
  decide

/-- C2: the weight triple is keyed only on the distance tag with the
magnitude ignored — `Near ↦ (9, 2, 0)`, `Mid ↦ (7, 10, 1)`,
`Far ↦ (1, 6, 3)` — every class within a tier carries exactly its tier's
weight in the candidate list, and two distances with the same tag induce
the same candidate list and hence the same selection outcome for every
draw value. -/
theorem weighted_choice_tag_keyed :
    (∀ a b : Nat,
      candidates (.Near a) = candidates (.Near b) ∧
        candidates (.Mid a) = candidates (.Mid b) ∧
        candidates (.Far a) = candidates (.Far b)) ∧
      (∀ (a b : Nat) (r : Int),
        random_enemy (.Near a) r = random_enemy (.Near b) r ∧
          random_enemy (.Mid a) r = random_enemy (.Mid b) r ∧
          random_enemy (.Far a) r = random_enemy (.Far b) r) ∧
      (∀ a : Nat,
        tierWeights (.Near a) = (9, 2, 0) ∧
          tierWeights (.Mid a) = (7, 10, 1) ∧
          tierWeights (.Far a) = (1, 6, 3)) ∧
      (∀ (d : Distance) (c : Class) (w : Int), (c, w) ∈ candidates d →
        (c ∈ COMMON → w = (tierWeights d).1) ∧
          (c ∈ RARE → w = (tierWeights d).2.1) ∧
          (c ∈ LEGENDARY → w = (tierWeights d).2.2)) ∧
      (∀ d : Distance,
        (∀ c ∈ COMMON, (c, (tierWeights d).1) ∈ candidates d) ∧
          (∀ c ∈ RARE, (c, (tierWeights d).2.1) ∈ candidates d) ∧
          (∀ c ∈ LEGENDARY, (c, (tierWeights d).2.2) ∈ candidates d)) := by
  refine ⟨fun a b => ⟨rfl, rfl, rfl⟩, fun a b r => ⟨rfl, rfl, rfl⟩,
    fun a => ⟨rfl, rfl, rfl⟩, fun d c w h => ?_, tier_mem_candidates⟩
  rcases mem_candidates d c w h with ⟨hc, rfl⟩ | ⟨hc, rfl⟩ | ⟨hc, rfl⟩
  · exact ⟨fun _ => rfl, fun hr => absurd hr ((common_disjoint c hc).1),
      fun hl => absurd hl ((common_disjoint c hc).2)⟩
  · exact ⟨fun hco => absurd hco ((rare_disjoint c hc).1), fun _ => rfl,
      fun hl => absurd hl ((rare_disjoint c hc).2)⟩
  · exact ⟨fun hco => absurd hco ((legendary_disjoint c hc).1),
      fun hr => absurd hr ((legendary_disjoint c hc).2), fun _ => rfl⟩

/-- C2 witness: same-tag magnitudes 0/7 give identical candidate lists and
draws; the weight triples at concrete distances; the rat carries the COMMON
weight 9 at a `Near` distance. -/
theorem weighted_choice_tag_keyed_witness :
    candidates (.Near 0) = candidates (.Near 7) ∧
      random_enemy (.Mid 1) 0 = random_enemy (.Mid 9) 0 ∧
      tierWeights (.Far 4) = (1, 6, 3) ∧
      (9 : Int) = (tierWeights (.Near 2)).1 ∧
      (RAT, (tierWeights (.Near 2)).1) ∈ candidates (.Near 2) :=
  ⟨(weighted_choice_tag_keyed.1 0 7).1,
    (weighted_choice_tag_keyed.2.1 1 9 0).2.1,
    (weighted_choice_tag_keyed.2.2.1 4).2.2,
    (weighted_choice_tag_keyed.2.2.2.1 (.Near 2) RAT 9 (by decide)).1
      (by decide),
    (weighted_choice_tag_keyed.2.2.2.2 (.Near 2)).1 RAT (by decide)⟩

/-- C3: for every distance the flattened candidate list is non-empty with
non-negative weights and positive total, so the error branch of
`choose_weighted` is unreachable and every in-range draw yields a class. -/
theorem random_enemy_total (d : Distance) (r : Int) (h0 : 0 ≤ r)
    (hr : r < totalWeight (candidates d)) :
    candidates d ≠ [] ∧ (∀ p ∈ candidates d, 0 ≤ p.2) ∧
      0 < totalWeight (candidates d) ∧ (random_enemy d r).isSome = true := by
  refine ⟨?_, ?_, by omega, ?_⟩
  · rcases d with n | n | n
    · rw [(candidates_canon n).1]; decide
    · rw [(candidates_canon n).2.1]; decide
    · rw [(candidates_canon n).2.2]; decide
  · rcases d with n | n | n
    · rw [(candidates_canon n).1]; decide
    · rw [(candidates_canon n).2.1]; decide
    · rw [(candidates_canon n).2.2]; decide
  · have hguard : ¬((candidates d).isEmpty ∨
        (candidates d).any (fun p => decide (p.2 < 0)) ∨
        totalWeight (candidates d) ≤ 0) := by
      rcases d with n | n | n
      · rw [(candidates_canon n).1]; decide
      · rw [(candidates_canon n).2.1]; decide
      · rw [(candidates_canon n).2.2]; decide
    rw [random_enemy, choose_weighted, if_neg hguard]
    exact pick_isSome _ r h0 hr

/-- C3 witness: at `Near 0` the total weight is positive and the draw 0
selects a class. -/
theorem random_enemy_total_witness :
    (0 : Int) ≤ 0 ∧ (0 : Int) < totalWeight (candidates (.Near 0)) ∧
      (random_enemy (.Near 0) 0).isSome = true :=
  ⟨by decide, by decide,
    (random_enemy_total (.Near 0) 0 (by decide) (by decide)).2.2.2⟩

/-- C4: at any `Near` distance, a successful draw lies in COMMON or RARE,
never in LEGENDARY: the LEGENDARY weight at `Near` is 0 and the LEGENDARY
tier carries probability mass exactly 0. -/
theorem random_enemy_near_no_legendary (n : Nat) (r : Int) (c : Class)
    (h0 : 0 ≤ r) (hc : random_enemy (.Near n) r = some c) :
    (c ∈ COMMON ∨ c ∈ RARE) ∧ c ∉ LEGENDARY ∧
      (tierWeights (.Near n)).2.2 = 0 ∧ tierProb (.Near n) LEGENDARY = 0 := by
  obtain ⟨w, hmem, hw⟩ := random_enemy_mem _ r c h0 hc
  have hmass : tierMass (candidates (.Near n)) LEGENDARY = 0 := rfl
  have hprob : tierProb (.Near n) LEGENDARY = 0 := by
    rw [tierProb, hmass]
    simp
  rcases mem_candidates _ c w hmem with ⟨hcm, hwv⟩ | ⟨hcm, hwv⟩ | ⟨hcm, hwv⟩
  · exact ⟨Or.inl hcm, (common_disjoint c hcm).2, rfl, hprob⟩
  · exact ⟨Or.inr hcm, (rare_disjoint c hcm).2, rfl, hprob⟩
  · rw [show (tierWeights (.Near n)).2.2 = 0 from rfl] at hwv
    omega

/-- C4 witness: the draw 0 at `Near 0` yields the rat, which is COMMON and
not LEGENDARY. -/
theorem random_enemy_near_no_legendary_witness :
    (0 : Int) ≤ 0 ∧ random_enemy (.Near 0) 0 = some RAT ∧
      ((RAT ∈ COMMON ∨ RAT ∈ RARE) ∧ RAT ∉ LEGENDARY ∧
        (tierWeights (.Near 0)).2.2 = 0 ∧ tierProb (.Near 0) LEGENDARY = 0) :=
  ⟨by decide, by decide,
    random_enemy_near_no_legendary 0 0 RAT (by decide) (by decide)⟩

/-- C6: the three tiers are pairwise disjoint, every class of the flattened
catalog belongs to exactly one tier, the hero belongs to no tier, and
consequently `random_enemy` can never return the hero. -/
theorem catalog_partition_invariant :
    (∀ c ∈ COMMON, c ∉ RARE ∧ c ∉ LEGENDARY) ∧
      (∀ c ∈ RARE, c ∉ COMMON ∧ c ∉ LEGENDARY) ∧
      (∀ c ∈ LEGENDARY, c ∉ COMMON ∧ c ∉ RARE) ∧
      (∀ c ∈ COMMON ++ RARE ++ LEGENDARY,
        (COMMON.contains c).toNat + (RARE.contains c).toNat
          + (LEGENDARY.contains c).toNat = 1) ∧
      Class.HERO ∉ COMMON ∧ Class.HERO ∉ RARE ∧ Class.HERO ∉ LEGENDARY ∧
      (∀ (d : Distance) (r : Int) (c : Class), 0 ≤ r →
        random_enemy d r = some c → c ≠ Class.HERO) := by
  refine ⟨common_disjoint, rare_disjoint, legendary_disjoint, by decide,
    hero_not_tiered.1, hero_not_tiered.2.1, hero_not_tiered.2.2,
    fun d r c h0 hc => ?_⟩
  obtain ⟨w, hmem, _⟩ := random_enemy_mem d r c h0 hc
  rcases mem_candidates d c w hmem with ⟨hcm, _⟩ | ⟨hcm, _⟩ | ⟨hcm, _⟩ <;>
    rintro rfl
  · exact hero_not_tiered.1 hcm
  · exact hero_not_tiered.2.1 hcm
  · exact hero_not_tiered.2.2 hcm

/-- C6 witness: the rat is only COMMON, and the draw 0 at `Far 3` returns
the rat, which is not the hero. -/
theorem catalog_partition_invariant_witness :
    RAT ∈ COMMON ++ RARE ++ LEGENDARY ∧
      (COMMON.contains RAT).toNat + (RARE.contains RAT).toNat
        + (LEGENDARY.contains RAT).toNat = 1 ∧
      (0 : Int) ≤ 0 ∧ random_enemy (.Far 3) 0 = some RAT ∧
      RAT ≠ Class.HERO :=
  ⟨by decide, catalog_partition_invariant.2.2.2.1 RAT (by decide), by decide,
    by decide,
    catalog_partition_invariant.2.2.2.2.2.2.2 (.Far 3) 0 RAT (by decide)
      (by decide)⟩

/-- C9: the orchestrator's exit-code logic — `change_dir` returns 1 exactly
for an invalid destination or a fatal (non-forced) move, resetting the game
exactly in the death case, and 0 otherwise; `battle` returns 1 and resets
exactly when an enemy spawned and the battle was fatal. -/
theorem exit_code_propagation (parsed : Option String) (goTo : GoToResult)
    (force : Bool) (spawned : Bool) (result : BattleResult) :
    ((change_dir parsed goTo force).exitCode = 1 ↔
        parsed = none ∨ (parsed ≠ none ∧ force = false ∧ goTo = .dead)) ∧
      ((change_dir parsed goTo force).exitCode = 0 ∨
        (change_dir parsed goTo force).exitCode = 1) ∧
      ((change_dir parsed goTo force).didReset = true ↔
        parsed ≠ none ∧ force = false ∧ goTo = .dead) ∧
      ((battle spawned result).1 = 1 ↔ spawned = true ∧ result = .dead) ∧
      ((battle spawned result).1 = 0 ∨ (battle spawned result).1 = 1) ∧
      ((battle spawned result).2 = true ↔ spawned = true ∧ result = .dead) := by
  cases parsed <;> cases goTo <;> cases force <;> cases spawned <;>
    cases result <;> simp [change_dir, battle]

theorem toNat_ofNat_valid {n : Nat} (h : n.isValidChar) :
    (Char.ofNat n).toNat = n := by
  rw [Char.ofNat, dif_pos h]
  rfl

/-- The search tree holds exactly the flat sorted mapping table. -/
theorem lowerTree_matches_table :
    consumeInOrder lowerTree lowerTable = some [] := by
  decide

/-- The search tree is strictly ordered, so `find` is a genuine key
lookup and the in-order contents are strictly sorted by code point. -/
theorem lowerTree_ordered : treeOrdered lowerTree 0 1114112 = true := by
  decide

/-- A successful tree lookup returns the expansion of some stored entry. -/
theorem find_mem (n : Nat) (v : List Nat) :
    ∀ t : LTree, t.find n = some v → ∃ k, (k, v) ∈ t.toList := by
  intro t
  induction t with
  | leaf => intro h; exact absurd h (by simp [LTree.find])
  | node l k w r ihl ihr =>
    intro h
    rw [LTree.find] at h
    by_cases h1 : n < k
    · rw [if_pos h1] at h
      obtain ⟨k', hk'⟩ := ihl h
      exact ⟨k', by rw [LTree.toList]; exact List.mem_append_left _ hk'⟩
    · rw [if_neg h1] at h
      by_cases h2 : k < n
      · rw [if_pos h2] at h
        obtain ⟨k', hk'⟩ := ihr h
        exact ⟨k', by
          rw [LTree.toList]
          exact List.mem_append_right _ (List.mem_cons_of_mem _ hk')⟩
      · rw [if_neg h2] at h
        cases h
        exact ⟨k, by
          rw [LTree.toList]
          exact List.mem_append_right _ (List.mem_cons_self _ _)⟩

/-- The tree-structured output check implies the entry-wise property. -/
theorem treeOutputsFixed_sound :
    ∀ t : LTree, treeOutputsFixed t = true →
      ∀ p ∈ t.toList, ∀ k ∈ p.2,
        Nat.isValidChar k ∧ lowerTree.find k = none ∧ k ≠ 931 := by
  intro t
  induction t with
  | leaf =>
    intro _ p hp
    rw [LTree.toList] at hp
    exact absurd hp (List.not_mem_nil p)
  | node l key v r ihl ihr =>
    intro h p hp
    rw [treeOutputsFixed] at h
    simp only [Bool.and_eq_true] at h
    obtain ⟨⟨h1, h2⟩, h3⟩ := h
    rw [LTree.toList] at hp
    rcases List.mem_append.mp hp with hp | hp
    · exact ihl h2 p hp
    · rcases List.mem_cons.mp hp with rfl | hp
      · intro k hk
        have hk2 := List.all_eq_true.mp h1 k hk
        simp only [Bool.and_eq_true, decide_eq_true_eq,
          Option.isNone_iff_eq_none, bne_iff_ne] at hk2
        exact ⟨hk2.1.1, hk2.1.2, hk2.2⟩
      · exact ihr h3 p hp

/-- Every code point in a table expansion is a valid scalar value, has no
lowercase mapping of its own, and is not capital sigma: lowercasing
produces only characters that lowercase to themselves. -/
theorem lowerTable_outputs_fixed :
    ∀ p ∈ lowerTree.toList, ∀ k ∈ p.2,
      Nat.isValidChar k ∧ lowerTree.find k = none ∧ k ≠ 931 :=
  treeOutputsFixed_sound lowerTree (by decide)

/-- Final sigma (962) and small sigma (963) are valid scalar values with no
lowercase mapping, distinct from capital sigma. -/
theorem sigma_outputs_fixed :
    Nat.isValidChar 962 ∧ Nat.isValidChar 963 ∧
      lowerTree.find 962 = none ∧ lowerTree.find 963 = none ∧
      (962 : Nat) ≠ 931 ∧ (963 : Nat) ≠ 931 := by
  decide

/-- Every character produced by the lowercasing loop lowercases to itself
and is not capital sigma. -/
theorem toLowerCore_output_fixed :
    ∀ l rb : List Char, ∀ c ∈ toLowerCore rb l,
      lowerTree.find c.toNat = none ∧ c.toNat ≠ 931 := by
  intro l
  induction l with
  | nil => intro rb c hc; exact absurd hc (by simp [toLowerCore])
  | cons a t ih =>
    intro rb c hc
    rw [toLowerCore] at hc
    rcases List.mem_append.mp hc with h | h
    · by_cases ha : a.toNat = 931
      · rw [if_pos ha] at h
        by_cases hctx :
            (caseIgnorableThenCased rb && !caseIgnorableThenCased t) = true
        · rw [if_pos hctx] at h
          simp only [List.mem_singleton] at h
          subst h
          rw [toNat_ofNat_valid sigma_outputs_fixed.1]
          exact ⟨sigma_outputs_fixed.2.2.1, by decide⟩
        · rw [if_neg hctx] at h
          simp only [List.mem_singleton] at h
          subst h
          rw [toNat_ofNat_valid sigma_outputs_fixed.2.1]
          exact ⟨sigma_outputs_fixed.2.2.2.1, by decide⟩
      · rw [if_neg ha] at h
        unfold lowerCharFull at h
        cases hlk : lowerTree.find a.toNat with
        | some v =>
          rw [hlk] at h
          obtain ⟨k, hk, rfl⟩ := List.mem_map.mp h
          obtain ⟨key, hmem⟩ := find_mem a.toNat v lowerTree hlk
          obtain ⟨hval, hnone, hne⟩ :=
            lowerTable_outputs_fixed (key, v) hmem k hk
          rw [toNat_ofNat_valid hval]
          exact ⟨hnone, hne⟩
        | none =>
          rw [hlk] at h
          simp only [List.mem_singleton] at h
          subst h
          exact ⟨hlk, ha⟩
    · exact ih (a :: rb) c h

/-- The lowercasing loop leaves a list of lower-fixed characters unchanged,
whatever the consumed prefix. -/
theorem toLowerCore_fixed :
    ∀ l : List Char,
      (∀ c ∈ l, lowerTree.find c.toNat = none ∧ c.toNat ≠ 931) →
      ∀ rb, toLowerCore rb l = l := by
  intro l
  induction l with
  | nil => intro _ rb; rfl
  | cons a t ih =>
    intro h rb
    obtain ⟨h1, h2⟩ := h a (List.mem_cons_self _ _)
    rw [toLowerCore, if_neg h2]
    unfold lowerCharFull
    rw [h1, ih (fun c hc => h c (List.mem_cons_of_mem _ hc)) (a :: rb)]
    rfl

theorem toLowercase_idem (s : String) :
    toLowercase (toLowercase s) = toLowercase s := by
  unfold toLowercase
  exact congrArg String.mk
    (toLowerCore_fixed _ (toLowerCore_output_fixed s.data []) [])

theorem sanitize_toLowercase (s : String) :
    sanitize (toLowercase s) = sanitize s := by
  unfold sanitize
  rw [toLowercase_idem]

theorem sanitize_branches (s : String) :
    sanitize s = "potion" ∨ sanitize s = "escape" ∨ sanitize s = "sword" ∨
      sanitize s = "shield" ∨ sanitize s = toLowercase s := by
  unfold sanitize
  split_ifs <;> simp

/-- C10: `sanitize` is idempotent, maps any string lowercasing to an alias
to its canonical item name, and returns every other string lowercased but
otherwise unchanged. -/
theorem sanitize_idempotent_aliases (n : String) :
    sanitize (sanitize n) = sanitize n ∧
      (toLowercase n = "p" ∨ toLowercase n = "potion" →
        sanitize n = "potion") ∧
      (toLowercase n = "e" ∨ toLowercase n = "escape" →
        sanitize n = "escape") ∧
      (toLowercase n = "sw" ∨ toLowercase n = "sword" →
        sanitize n = "sword") ∧
      (toLowercase n = "sh" ∨ toLowercase n = "shield" →
        sanitize n = "shield") ∧
      (toLowercase n ∉ sanitizeAliases → sanitize n = toLowercase n) := by
  refine ⟨?_, ?_, ?_, ?_, ?_, ?_⟩
  · rcases sanitize_branches n with h | h | h | h | h <;> rw [h]
    · decide
    · decide
    · decide
    · decide
    · rw [sanitize_toLowercase]
      exact h
  · intro h
    unfold sanitize
    rcases h with h | h <;> rw [h] <;> decide
  · intro h
    unfold sanitize
    rcases h with h | h <;> rw [h] <;> decide
  · intro h
    unfold sanitize
    rcases h with h | h <;> rw [h] <;> decide
  · intro h
    unfold sanitize
    rcases h with h | h <;> rw [h] <;> decide
  · intro h
    simp only [sanitizeAliases, List.mem_cons, List.not_mem_nil, or_false,
      not_or] at h
    obtain ⟨h1, h2, h3, h4, h5, h6, h7, h8⟩ := h
    unfold sanitize
    rw [if_neg (not_or.mpr ⟨h1, h2⟩), if_neg (not_or.mpr ⟨h3, h4⟩),
      if_neg (not_or.mpr ⟨h5, h6⟩), if_neg (not_or.mpr ⟨h7, h8⟩)]

/-- C10 witness: "P" lowercases to the alias "p" and is canonicalized to
"potion"; "Rat" is no alias and is returned lowercased; idempotence at
"Sh". -/
theorem sanitize_idempotent_aliases_witness :
    (toLowercase "P" = "p" ∨ toLowercase "P" = "potion") ∧
      sanitize "P" = "potion" ∧
      toLowercase "Rat" ∉ sanitizeAliases ∧
      sanitize "Rat" = toLowercase "Rat" ∧
      sanitize (sanitize "Sh") = sanitize "Sh" :=
  ⟨Or.inl (by decide), (sanitize_idempotent_aliases "P").2.1 (Or.inl (by decide)),
    by decide,
    (sanitize_idempotent_aliases "Rat").2.2.2.2.2 (by decide),
    (sanitize_idempotent_aliases "Sh").1⟩

end RpgCli
